import Mathlib

/-!
# UnityEngine.ClothModule: the lazily bound icall shim

Shallow embedding of `UnityEngine.ClothModule.cpp`.  Every icall wrapper of
the file is one instance of the same generated template (a function-local
static function pointer, resolved on first use through
`il2cpp_codegen_resolve_icall`, then called with the handle and the
arguments).  The template is `icall`; the per-wrapper data (key string and
function-pointer type) is the table `CallSite.key` / `CallSite.sig`.
-/

namespace ClothModule

/-! ## Single-precision floats -/

/-- The C type `float`: an IEEE-754 binary32 value, given by its bit pattern. -/
structure F32 where
  bits : Nat
  isLt : bits < 4294967296
deriving DecidableEq, Repr

namespace F32

/-- The float with the given bit pattern. -/
def ofBits (n : Nat) : F32 := ⟨n % 4294967296, Nat.mod_lt _ (by decide)⟩

/-- The literal `0.0f`. -/
def zero : F32 := ofBits 0x00000000
/-- The literal `0.5f`. -/
def half : F32 := ofBits 0x3F000000
/-- The literal `120.0f`. -/
def c120 : F32 := ofBits 0x42F00000

/-- Sign bit (bit 31). -/
def sign (x : F32) : Bool := decide (2147483648 ≤ x.bits)
/-- Biased exponent (bits 23 to 30). -/
def exponent (x : F32) : Nat := (x.bits / 8388608) % 256
/-- Fraction field (bits 0 to 22). -/
def mantissa (x : F32) : Nat := x.bits % 8388608
/-- Sign-less part of the pattern (bits 0 to 30). -/
def magnitude (x : F32) : Nat := x.bits % 2147483648

/-- Not-a-number: exponent all ones and a non-zero fraction. -/
def isNaN (x : F32) : Bool := decide (2139095040 < x.magnitude)

/-- Sign-magnitude pattern read as an integer; monotone in the value on
non-NaN floats, and both zeros map to 0. -/
def key (x : F32) : Int := if x.sign then -(x.magnitude : Int) else (x.magnitude : Int)

/-- The C comparison `a > b` on floats: false as soon as one side is NaN. -/
def gt (a b : F32) : Bool := !a.isNaN && !b.isNaN && decide (b.key < a.key)

/-- The rational a non-NaN pattern denotes (an infinity reads as `±2^128`). -/
def toRat (x : F32) : ℚ :=
  (if x.sign then -1 else 1)
    * (if x.exponent = 0 then (x.mantissa : ℚ) else (8388608 + x.mantissa : ℚ))
    * (2 : ℚ) ^ (if x.exponent = 0 then (-149 : Int) else (x.exponent : Int) - 150)

/-- A float is positive when it is not NaN and the number it denotes is
greater than zero. -/
def IsPos (x : F32) : Prop := x.isNaN = false ∧ 0 < x.toRat

end F32

/-! ## Value types of the module -/

/-- `Vector2_t`. -/
structure Vector2 where
  x : F32
  y : F32
deriving DecidableEq, Repr

/-- `Vector3_t`. -/
structure Vector3 where
  x : F32
  y : F32
  z : F32
deriving DecidableEq, Repr

/-- `Ray_t`. -/
structure Ray where
  m_Origin : Vector3
  m_Direction : Vector3
deriving DecidableEq, Repr

/-- `RaycastHit_t`. -/
structure RaycastHit where
  m_Point : Vector3
  m_Normal : Vector3
  m_FaceID : Nat
  m_Distance : F32
  m_UV : Vector2
  m_Collider : Int
deriving DecidableEq, Repr

/-- `memset(&V_0, 0, sizeof(V_0))` on a `Vector2`. -/
def Vector2.zero : Vector2 := ⟨F32.zero, F32.zero⟩
/-- `memset(&V_0, 0, sizeof(V_0))` on a `Vector3`. -/
def Vector3.zero : Vector3 := ⟨F32.zero, F32.zero, F32.zero⟩
/-- `memset(&V_0, 0, sizeof(V_0))` on a `RaycastHit`. -/
def RaycastHit.zero : RaycastHit := ⟨Vector3.zero, Vector3.zero, 0, F32.zero, Vector2.zero, 0⟩

/-- A managed reference (`Cloth_t*`, an array, a `List_1`): an address, 0 is `NULL`. -/
abbrev Ptr := Nat
/-- The host object handle `Cloth_t* __this`. -/
abbrev Handle := Ptr
/-- The null handle. -/
def null : Handle := 0

/-- Fields of `Cloth_t` (with the inherited `Object_t.m_CachedPtr`). -/
structure Cloth_t where
  m_CachedPtr : Int
  useContinuousCollision : F32
  selfCollision : Bool
deriving DecidableEq, Repr

/-- A resolved native entry point, as an opaque identifier; the null function
pointer is the `none` of a cache. -/
abbrev EntryPoint := Nat

/-! ## Function-pointer types -/

/-- Parameter and return types occurring in the `_ftn` typedefs.  A `Ref`
type is a pointer parameter; its value is the content of the slot pointed to. -/
inductive Ty where
  | void
  | object
  | single
  | boolean
  | vector3Ref
  | rayRef
  | booleanRef
  | raycastHitRef
deriving DecidableEq, Repr

/-- Values of a type. -/
@[reducible] def Ty.denote : Ty → Type
  | .void => Unit
  | .object => Ptr
  | .single => F32
  | .boolean => Bool
  | .vector3Ref => Vector3
  | .rayRef => Ray
  | .booleanRef => Bool
  | .raycastHitRef => RaycastHit

/-- An `_ftn` typedef: the parameters after `Cloth_t*`, and the return type. -/
structure Sig where
  params : List Ty
  ret : Ty
deriving DecidableEq, Repr

/-- An argument list for the given parameter types. -/
@[reducible] def Args : List Ty → Type
  | [] => Unit
  | t :: ts => t.denote × Args ts

/-- A typed value, as recorded in the call log. -/
abbrev Val := (t : Ty) × t.denote

/-- The argument list as a list of typed values, in order. -/
def Args.toVals : {ts : List Ty} → Args ts → List Val
  | [], _ => []
  | t :: _, (a, rest) => ⟨t, a⟩ :: Args.toVals rest

/-! ## Call sites -/

/-- One constructor per `static ..._ftn _il2cpp_icall_func` of the file, named
after the wrapper that owns it. -/
inductive CallSite where
  | get_vertices
  | get_normals
  | get_coefficients
  | set_coefficients
  | get_capsuleColliders
  | set_capsuleColliders
  | get_sphereColliders
  | set_sphereColliders
  | get_sleepThreshold
  | set_sleepThreshold
  | get_bendingStiffness
  | set_bendingStiffness
  | get_stretchingStiffness
  | set_stretchingStiffness
  | get_damping
  | set_damping
  | get_useGravity
  | set_useGravity
  | get_enabled
  | set_enabled
  | get_friction
  | set_friction
  | get_collisionMassScale
  | set_collisionMassScale
  | get_enableContinuousCollision
  | set_enableContinuousCollision
  | get_useVirtualParticles
  | set_useVirtualParticles
  | get_worldVelocityScale
  | set_worldVelocityScale
  | get_worldAccelerationScale
  | set_worldAccelerationScale
  | get_clothSolverFrequency
  | set_clothSolverFrequency
  | get_useTethers
  | set_useTethers
  | get_stiffnessFrequency
  | set_stiffnessFrequency
  | get_selfCollisionDistance
  | set_selfCollisionDistance
  | get_selfCollisionStiffness
  | set_selfCollisionStiffness
  | ClearTransformMotion
  | GetSelfAndInterCollisionIndices
  | SetSelfAndInterCollisionIndices
  | GetVirtualParticleIndices
  | SetVirtualParticleIndices
  | GetVirtualParticleWeights
  | SetVirtualParticleWeights
  | SetEnabledFading
  | get_externalAcceleration_Injected
  | set_externalAcceleration_Injected
  | get_randomAcceleration_Injected
  | set_randomAcceleration_Injected
  | Raycast_Injected
deriving DecidableEq, Repr

/-- The string literal each wrapper passes to `il2cpp_codegen_resolve_icall`. -/
def CallSite.key : CallSite → String
  | .get_vertices => "UnityEngine.Cloth::get_vertices()"
  | .get_normals => "UnityEngine.Cloth::get_normals()"
  | .get_coefficients => "UnityEngine.Cloth::get_coefficients()"
  | .set_coefficients => "UnityEngine.Cloth::set_coefficients(UnityEngine.ClothSkinningCoefficient[])"
  | .get_capsuleColliders => "UnityEngine.Cloth::get_capsuleColliders()"
  | .set_capsuleColliders => "UnityEngine.Cloth::set_capsuleColliders(UnityEngine.CapsuleCollider[])"
  | .get_sphereColliders => "UnityEngine.Cloth::get_sphereColliders()"
  | .set_sphereColliders => "UnityEngine.Cloth::set_sphereColliders(UnityEngine.ClothSphereColliderPair[])"
  | .get_sleepThreshold => "UnityEngine.Cloth::get_sleepThreshold()"
  | .set_sleepThreshold => "UnityEngine.Cloth::set_sleepThreshold(System.Single)"
  | .get_bendingStiffness => "UnityEngine.Cloth::get_bendingStiffness()"
  | .set_bendingStiffness => "UnityEngine.Cloth::set_bendingStiffness(System.Single)"
  | .get_stretchingStiffness => "UnityEngine.Cloth::get_stretchingStiffness()"
  | .set_stretchingStiffness => "UnityEngine.Cloth::set_stretchingStiffness(System.Single)"
  | .get_damping => "UnityEngine.Cloth::get_damping()"
  | .set_damping => "UnityEngine.Cloth::set_damping(System.Single)"
  | .get_useGravity => "UnityEngine.Cloth::get_useGravity()"
  | .set_useGravity => "UnityEngine.Cloth::set_useGravity(System.Boolean)"
  | .get_enabled => "UnityEngine.Cloth::get_enabled()"
  | .set_enabled => "UnityEngine.Cloth::set_enabled(System.Boolean)"
  | .get_friction => "UnityEngine.Cloth::get_friction()"
  | .set_friction => "UnityEngine.Cloth::set_friction(System.Single)"
  | .get_collisionMassScale => "UnityEngine.Cloth::get_collisionMassScale()"
  | .set_collisionMassScale => "UnityEngine.Cloth::set_collisionMassScale(System.Single)"
  | .get_enableContinuousCollision => "UnityEngine.Cloth::get_enableContinuousCollision()"
  | .set_enableContinuousCollision => "UnityEngine.Cloth::set_enableContinuousCollision(System.Boolean)"
  | .get_useVirtualParticles => "UnityEngine.Cloth::get_useVirtualParticles()"
  | .set_useVirtualParticles => "UnityEngine.Cloth::set_useVirtualParticles(System.Single)"
  | .get_worldVelocityScale => "UnityEngine.Cloth::get_worldVelocityScale()"
  | .set_worldVelocityScale => "UnityEngine.Cloth::set_worldVelocityScale(System.Single)"
  | .get_worldAccelerationScale => "UnityEngine.Cloth::get_worldAccelerationScale()"
  | .set_worldAccelerationScale => "UnityEngine.Cloth::set_worldAccelerationScale(System.Single)"
  | .get_clothSolverFrequency => "UnityEngine.Cloth::get_clothSolverFrequency()"
  | .set_clothSolverFrequency => "UnityEngine.Cloth::set_clothSolverFrequency(System.Single)"
  | .get_useTethers => "UnityEngine.Cloth::get_useTethers()"
  | .set_useTethers => "UnityEngine.Cloth::set_useTethers(System.Boolean)"
  | .get_stiffnessFrequency => "UnityEngine.Cloth::get_stiffnessFrequency()"
  | .set_stiffnessFrequency => "UnityEngine.Cloth::set_stiffnessFrequency(System.Single)"
  | .get_selfCollisionDistance => "UnityEngine.Cloth::get_selfCollisionDistance()"
  | .set_selfCollisionDistance => "UnityEngine.Cloth::set_selfCollisionDistance(System.Single)"
  | .get_selfCollisionStiffness => "UnityEngine.Cloth::get_selfCollisionStiffness()"
  | .set_selfCollisionStiffness => "UnityEngine.Cloth::set_selfCollisionStiffness(System.Single)"
  | .ClearTransformMotion => "UnityEngine.Cloth::ClearTransformMotion()"
  | .GetSelfAndInterCollisionIndices => "UnityEngine.Cloth::GetSelfAndInterCollisionIndices(System.Collections.Generic.List`1<System.UInt32>)"
  | .SetSelfAndInterCollisionIndices => "UnityEngine.Cloth::SetSelfAndInterCollisionIndices(System.Collections.Generic.List`1<System.UInt32>)"
  | .GetVirtualParticleIndices => "UnityEngine.Cloth::GetVirtualParticleIndices(System.Collections.Generic.List`1<System.UInt32>)"
  | .SetVirtualParticleIndices => "UnityEngine.Cloth::SetVirtualParticleIndices(System.Collections.Generic.List`1<System.UInt32>)"
  | .GetVirtualParticleWeights => "UnityEngine.Cloth::GetVirtualParticleWeights(System.Collections.Generic.List`1<UnityEngine.Vector3>)"
  | .SetVirtualParticleWeights => "UnityEngine.Cloth::SetVirtualParticleWeights(System.Collections.Generic.List`1<UnityEngine.Vector3>)"
  | .SetEnabledFading => "UnityEngine.Cloth::SetEnabledFading(System.Boolean,System.Single)"
  | .get_externalAcceleration_Injected => "UnityEngine.Cloth::get_externalAcceleration_Injected(UnityEngine.Vector3&)"
  | .set_externalAcceleration_Injected => "UnityEngine.Cloth::set_externalAcceleration_Injected(UnityEngine.Vector3&)"
  | .get_randomAcceleration_Injected => "UnityEngine.Cloth::get_randomAcceleration_Injected(UnityEngine.Vector3&)"
  | .set_randomAcceleration_Injected => "UnityEngine.Cloth::set_randomAcceleration_Injected(UnityEngine.Vector3&)"
  | .Raycast_Injected => "UnityEngine.Cloth::Raycast_Injected(UnityEngine.Ray&,System.Single,System.Boolean&,UnityEngine.RaycastHit&)"

/-- The `_ftn` typedef of each wrapper. -/
def CallSite.sig : CallSite → Sig
  | .get_vertices => ⟨[], .object⟩
  | .get_normals => ⟨[], .object⟩
  | .get_coefficients => ⟨[], .object⟩
  | .set_coefficients => ⟨[.object], .void⟩
  | .get_capsuleColliders => ⟨[], .object⟩
  | .set_capsuleColliders => ⟨[.object], .void⟩
  | .get_sphereColliders => ⟨[], .object⟩
  | .set_sphereColliders => ⟨[.object], .void⟩
  | .get_sleepThreshold => ⟨[], .single⟩
  | .set_sleepThreshold => ⟨[.single], .void⟩
  | .get_bendingStiffness => ⟨[], .single⟩
  | .set_bendingStiffness => ⟨[.single], .void⟩
  | .get_stretchingStiffness => ⟨[], .single⟩
  | .set_stretchingStiffness => ⟨[.single], .void⟩
  | .get_damping => ⟨[], .single⟩
  | .set_damping => ⟨[.single], .void⟩
  | .get_useGravity => ⟨[], .boolean⟩
  | .set_useGravity => ⟨[.boolean], .void⟩
  | .get_enabled => ⟨[], .boolean⟩
  | .set_enabled => ⟨[.boolean], .void⟩
  | .get_friction => ⟨[], .single⟩
  | .set_friction => ⟨[.single], .void⟩
  | .get_collisionMassScale => ⟨[], .single⟩
  | .set_collisionMassScale => ⟨[.single], .void⟩
  | .get_enableContinuousCollision => ⟨[], .boolean⟩
  | .set_enableContinuousCollision => ⟨[.boolean], .void⟩
  | .get_useVirtualParticles => ⟨[], .single⟩
  | .set_useVirtualParticles => ⟨[.single], .void⟩
  | .get_worldVelocityScale => ⟨[], .single⟩
  | .set_worldVelocityScale => ⟨[.single], .void⟩
  | .get_worldAccelerationScale => ⟨[], .single⟩
  | .set_worldAccelerationScale => ⟨[.single], .void⟩
  | .get_clothSolverFrequency => ⟨[], .single⟩
  | .set_clothSolverFrequency => ⟨[.single], .void⟩
  | .get_useTethers => ⟨[], .boolean⟩
  | .set_useTethers => ⟨[.boolean], .void⟩
  | .get_stiffnessFrequency => ⟨[], .single⟩
  | .set_stiffnessFrequency => ⟨[.single], .void⟩
  | .get_selfCollisionDistance => ⟨[], .single⟩
  | .set_selfCollisionDistance => ⟨[.single], .void⟩
  | .get_selfCollisionStiffness => ⟨[], .single⟩
  | .set_selfCollisionStiffness => ⟨[.single], .void⟩
  | .ClearTransformMotion => ⟨[], .void⟩
  | .GetSelfAndInterCollisionIndices => ⟨[.object], .void⟩
  | .SetSelfAndInterCollisionIndices => ⟨[.object], .void⟩
  | .GetVirtualParticleIndices => ⟨[.object], .void⟩
  | .SetVirtualParticleIndices => ⟨[.object], .void⟩
  | .GetVirtualParticleWeights => ⟨[.object], .void⟩
  | .SetVirtualParticleWeights => ⟨[.object], .void⟩
  | .SetEnabledFading => ⟨[.boolean, .single], .void⟩
  | .get_externalAcceleration_Injected => ⟨[.vector3Ref], .void⟩
  | .set_externalAcceleration_Injected => ⟨[.vector3Ref], .void⟩
  | .get_randomAcceleration_Injected => ⟨[.vector3Ref], .void⟩
  | .set_randomAcceleration_Injected => ⟨[.vector3Ref], .void⟩
  | .Raycast_Injected => ⟨[.rayRef, .single, .booleanRef, .raycastHitRef], .void⟩

/-- The call sites, in the order of the file. -/
def CallSite.all : List CallSite :=
  [.get_vertices, .get_normals, .get_coefficients, .set_coefficients,
   .get_capsuleColliders, .set_capsuleColliders, .get_sphereColliders, .set_sphereColliders,
   .get_sleepThreshold, .set_sleepThreshold, .get_bendingStiffness, .set_bendingStiffness,
   .get_stretchingStiffness, .set_stretchingStiffness, .get_damping, .set_damping,
   .get_useGravity, .set_useGravity, .get_enabled, .set_enabled,
   .get_friction, .set_friction, .get_collisionMassScale, .set_collisionMassScale,
   .get_enableContinuousCollision, .set_enableContinuousCollision, .get_useVirtualParticles, .set_useVirtualParticles,
   .get_worldVelocityScale, .set_worldVelocityScale, .get_worldAccelerationScale, .set_worldAccelerationScale,
   .get_clothSolverFrequency, .set_clothSolverFrequency, .get_useTethers, .set_useTethers,
   .get_stiffnessFrequency, .set_stiffnessFrequency, .get_selfCollisionDistance, .set_selfCollisionDistance,
   .get_selfCollisionStiffness, .set_selfCollisionStiffness, .ClearTransformMotion, .GetSelfAndInterCollisionIndices,
   .SetSelfAndInterCollisionIndices, .GetVirtualParticleIndices, .SetVirtualParticleIndices, .GetVirtualParticleWeights,
   .SetVirtualParticleWeights, .SetEnabledFading, .get_externalAcceleration_Injected, .set_externalAcceleration_Injected,
   .get_randomAcceleration_Injected, .set_randomAcceleration_Injected, .Raycast_Injected]

/-! ## The world -/

/-- Managed exceptions that can end a call. -/
inductive Failure where
  | missingMethod (key : String)
  | nullReference
  | external (code : Nat)
deriving DecidableEq, Repr

/-- Observable actions of the layer, oldest first in a log. -/
inductive Event where
  | resolve (key : String)
  | invoke (p : EntryPoint) (this : Handle) (args : List Val)

/-- What native code can read and write: the engine's own state and the
fields of the managed objects. -/
structure Store (σ : Type) where
  engine : σ
  heap : Handle → Cloth_t

/-- What a native call leaves behind: the store, and either a raised
exception or the return value with the content of the argument slots. -/
structure Reply (σ : Type) (s : Sig) where
  store : Store σ
  result : Except Failure (s.ret.denote × Args s.params)

/-- The host runtime and the engine, taken as a parameter: this file calls
them and does not define them.  `resolve_icall` is
`il2cpp_codegen_resolve_icall`, the symbol-resolution facility: given a
symbolic key it returns an invocable entry point, or fails fatally when the
key is unknown (`none`).  `native p s` is the external operation behind entry
point `p` when called through a function pointer of type `s`. -/
structure Host (σ : Type) where
  resolve_icall : String → Option EntryPoint
  native : EntryPoint → (s : Sig) → Handle → Args s.params → Store σ → Reply σ s

/-- State of the process: the static `_il2cpp_icall_func` of every call site
(`none` is the null pointer), the store, and the log of actions so far. -/
structure World (σ : Type) where
  icall_func : CallSite → Option EntryPoint
  store : Store σ
  log : List Event

/-- How a call ends: with a value or a raised exception, and a world. -/
structure Outcome (σ α : Type) where
  result : Except Failure α
  world : World σ

/-- The statement `_il2cpp_icall_func(__this, args...)` through pointer `p`
cast to the `_ftn` type of call site `c`. -/
def invoke {σ : Type} (H : Host σ) (c : CallSite) (p : EntryPoint) (this : Handle)
    (args : Args c.sig.params) (w : World σ) :
    Outcome σ (c.sig.ret.denote × Args c.sig.params) :=
  let r := H.native p c.sig this args w.store
  ⟨r.result,
   { w with store := r.store, log := w.log ++ [Event.invoke p this (Args.toVals args)] }⟩

/-- The body shared by all icall wrappers:
`if (!_il2cpp_icall_func) _il2cpp_icall_func = il2cpp_codegen_resolve_icall(key);`
then the call through the pointer.  A failed resolution raises out of the
wrapper before the assignment. -/
def icall {σ : Type} (H : Host σ) (c : CallSite) (this : Handle)
    (args : Args c.sig.params) (w : World σ) :
    Outcome σ (c.sig.ret.denote × Args c.sig.params) :=
  match w.icall_func c with
  | some p => invoke H c p this args w
  | none =>
    let w1 : World σ := { w with log := w.log ++ [Event.resolve c.key] }
    match H.resolve_icall c.key with
    | none => ⟨.error (.missingMethod c.key), w1⟩
    | some p =>
      invoke H c p this args { w1 with icall_func := Function.update w1.icall_func c (some p) }

/-- Keep the world of an outcome and map its value. -/
def Outcome.map {σ α β : Type} (f : α → β) (o : Outcome σ α) : Outcome σ β :=
  ⟨o.result.map f, o.world⟩

/-- The runtime's `NullCheck(p)`, declared in the il2cpp headers: raises
`NullReferenceException` when `p` is `NULL` and does nothing otherwise. -/
def NullCheck (p : Ptr) : Except Failure Unit :=
  if p = 0 then .error .nullReference else .ok ()

/-! ## Wrappers -/

/-- `Cloth_get_vertices`. -/
def Cloth_get_vertices {σ : Type} (H : Host σ) (this : Handle) (w : World σ) : Outcome σ Ptr :=
  (icall H .get_vertices this () w).map (·.1)

/-- `Cloth_get_sleepThreshold`. -/
def Cloth_get_sleepThreshold {σ : Type} (H : Host σ) (this : Handle) (w : World σ) :
    Outcome σ F32 :=
  (icall H .get_sleepThreshold this () w).map (·.1)

/-- `Cloth_set_sleepThreshold`. -/
def Cloth_set_sleepThreshold {σ : Type} (H : Host σ) (this : Handle) (value : F32)
    (w : World σ) : Outcome σ Unit :=
  (icall H .set_sleepThreshold this (value, ()) w).map (fun _ => ())

/-- `Cloth_get_useGravity`. -/
def Cloth_get_useGravity {σ : Type} (H : Host σ) (this : Handle) (w : World σ) :
    Outcome σ Bool :=
  (icall H .get_useGravity this () w).map (·.1)

/-- `Cloth_get_clothSolverFrequency`. -/
def Cloth_get_clothSolverFrequency {σ : Type} (H : Host σ) (this : Handle) (w : World σ) :
    Outcome σ F32 :=
  (icall H .get_clothSolverFrequency this () w).map (·.1)

/-- `Cloth_set_clothSolverFrequency`. -/
def Cloth_set_clothSolverFrequency {σ : Type} (H : Host σ) (this : Handle) (value : F32)
    (w : World σ) : Outcome σ Unit :=
  (icall H .set_clothSolverFrequency this (value, ()) w).map (fun _ => ())

/-- `Cloth_get_solverFrequency`: `V_0 = (L_0 > 0.0f) ? 1 : 0` on the float
read through `Cloth_get_clothSolverFrequency`. -/
def Cloth_get_solverFrequency {σ : Type} (H : Host σ) (this : Handle) (w : World σ) :
    Outcome σ Bool :=
  (Cloth_get_clothSolverFrequency H this w).map (fun L_0 => F32.gt L_0 F32.zero)

/-- `Cloth_set_solverFrequency`: both branches load the handle, one loads
`120.0f` and the other `0.0f`; at `IL_0011` the handle is null-checked and
`Cloth_set_clothSolverFrequency` is called. -/
def Cloth_set_solverFrequency {σ : Type} (H : Host σ) (this : Handle) (value : Bool)
    (w : World σ) : Outcome σ Unit :=
  let G_B3_0 : F32 := if value then F32.c120 else F32.zero
  let G_B3_1 : Handle := if value then this else this
  match NullCheck G_B3_1 with
  | .error e => ⟨.error e, w⟩
  | .ok () => Cloth_set_clothSolverFrequency H G_B3_1 G_B3_0 w

/-- `Cloth_ClearTransformMotion`. -/
def Cloth_ClearTransformMotion {σ : Type} (H : Host σ) (this : Handle) (w : World σ) :
    Outcome σ Unit :=
  (icall H .ClearTransformMotion this () w).map (fun _ => ())

/-- The two-argument `Cloth_SetEnabledFading`. -/
def Cloth_SetEnabledFading_mD98337A5404F8314CB32D91644F6995579D9855F {σ : Type} (H : Host σ)
    (this : Handle) (enabled : Bool) (interpolationTime : F32) (w : World σ) : Outcome σ Unit :=
  (icall H .SetEnabledFading this (enabled, interpolationTime, ()) w).map (fun _ => ())

/-- The one-argument `Cloth_SetEnabledFading`: the two-argument one at `0.5f`. -/
def Cloth_SetEnabledFading_mFC216321A4512E3BD8A3EA2557F723E92FBDE12B {σ : Type} (H : Host σ)
    (this : Handle) (enabled : Bool) (w : World σ) : Outcome σ Unit :=
  Cloth_SetEnabledFading_mD98337A5404F8314CB32D91644F6995579D9855F H this enabled F32.half w

/-- `Cloth_get_externalAcceleration_Injected`; `ret` is the content of the
slot `___0_ret` points to, the value is its content after the call. -/
def Cloth_get_externalAcceleration_Injected {σ : Type} (H : Host σ) (this : Handle)
    (ret : Vector3) (w : World σ) : Outcome σ Vector3 :=
  (icall H .get_externalAcceleration_Injected this (ret, ()) w).map (fun r => r.2.1)

/-- `Cloth_set_externalAcceleration_Injected`. -/
def Cloth_set_externalAcceleration_Injected {σ : Type} (H : Host σ) (this : Handle)
    (value : Vector3) (w : World σ) : Outcome σ Unit :=
  (icall H .set_externalAcceleration_Injected this (value, ()) w).map (fun _ => ())

/-- `Cloth_get_randomAcceleration_Injected`. -/
def Cloth_get_randomAcceleration_Injected {σ : Type} (H : Host σ) (this : Handle)
    (ret : Vector3) (w : World σ) : Outcome σ Vector3 :=
  (icall H .get_randomAcceleration_Injected this (ret, ()) w).map (fun r => r.2.1)

/-- `Cloth_set_randomAcceleration_Injected`. -/
def Cloth_set_randomAcceleration_Injected {σ : Type} (H : Host σ) (this : Handle)
    (value : Vector3) (w : World σ) : Outcome σ Unit :=
  (icall H .set_randomAcceleration_Injected this (value, ()) w).map (fun _ => ())

/-- `Cloth_Raycast_Injected`; the value is the content of the three slots
(`ray`, `hasHit`, `ret`) after the call. -/
def Cloth_Raycast_Injected {σ : Type} (H : Host σ) (this : Handle) (ray : Ray)
    (maxDistance : F32) (hasHit : Bool) (ret : RaycastHit) (w : World σ) :
    Outcome σ (Ray × Bool × RaycastHit) :=
  (icall H .Raycast_Injected this (ray, maxDistance, hasHit, ret, ()) w).map
    (fun r => (r.2.1, r.2.2.2.1, r.2.2.2.2.1))

/-- `Cloth_get_externalAcceleration`: zeroes `V_0`, hands `&V_0` to the
injected call, returns `V_0`. -/
def Cloth_get_externalAcceleration {σ : Type} (H : Host σ) (this : Handle) (w : World σ) :
    Outcome σ Vector3 :=
  let V_0 : Vector3 := Vector3.zero
  Cloth_get_externalAcceleration_Injected H this V_0 w

/-- `Cloth_set_externalAcceleration`. -/
def Cloth_set_externalAcceleration {σ : Type} (H : Host σ) (this : Handle) (value : Vector3)
    (w : World σ) : Outcome σ Unit :=
  Cloth_set_externalAcceleration_Injected H this value w

/-- `Cloth_get_randomAcceleration`. -/
def Cloth_get_randomAcceleration {σ : Type} (H : Host σ) (this : Handle) (w : World σ) :
    Outcome σ Vector3 :=
  let V_0 : Vector3 := Vector3.zero
  Cloth_get_randomAcceleration_Injected H this V_0 w

/-- `Cloth_set_randomAcceleration`. -/
def Cloth_set_randomAcceleration {σ : Type} (H : Host σ) (this : Handle) (value : Vector3)
    (w : World σ) : Outcome σ Unit :=
  Cloth_set_randomAcceleration_Injected H this value w

/-- `Cloth_Raycast`: zeroes `V_0`, forwards `&ray`, `maxDistance`, the caller's
`hasHit` pointer and `&V_0`, returns `V_0`.  The value is the returned record
and the content of `*hasHit` after the call. -/
def Cloth_Raycast {σ : Type} (H : Host σ) (this : Handle) (ray : Ray) (maxDistance : F32)
    (hasHit : Bool) (w : World σ) : Outcome σ (RaycastHit × Bool) :=
  let V_0 : RaycastHit := RaycastHit.zero
  (Cloth_Raycast_Injected H this ray maxDistance hasHit V_0 w).map (fun r => (r.2.2, r.2.1))

/-- Successive calls of the wrapper of site `c`, one per list element, each in
the world the previous one left. -/
def icallSeq {σ : Type} (H : Host σ) (c : CallSite) :
    List (Handle × Args c.sig.params) → World σ → World σ
  | [], w => w
  | call :: rest, w => icallSeq H c rest (icall H c call.1 call.2 w).world

/-- Whether an event is a call of the resolver. -/
def Event.isResolve : Event → Bool
  | .resolve _ => true
  | .invoke _ _ _ => false

/-- `Cloth_get_useContinuousCollision`: reads the backing field of the object
at `__this`.  The dereference is unchecked, so statements about the
field-backed accessors are made for handles of live objects. -/
def Cloth_get_useContinuousCollision {σ : Type} (this : Handle) (w : World σ) :
    Outcome σ F32 :=
  let L_0 : F32 := (w.store.heap this).useContinuousCollision
  ⟨.ok L_0, w⟩

/-- `Cloth_set_useContinuousCollision`: writes the backing field of the object
at `__this`. -/
def Cloth_set_useContinuousCollision {σ : Type} (this : Handle) (value : F32) (w : World σ) :
    Outcome σ Unit :=
  let L_0 : F32 := value
  let obj : Cloth_t := w.store.heap this
  let heap := Function.update w.store.heap this ⟨obj.m_CachedPtr, L_0, obj.selfCollision⟩
  ⟨.ok (), { w with store := { w.store with heap := heap } }⟩

/-- `Cloth_get_selfCollision`: reads the backing field of the object at
`__this`. -/
def Cloth_get_selfCollision {σ : Type} (this : Handle) (w : World σ) : Outcome σ Bool :=
  let L_0 : Bool := (w.store.heap this).selfCollision
  ⟨.ok L_0, w⟩

/-! ## Marshaling stubs and array accessors -/

/-- Managed exceptions raised by the marshaling stubs and by the bounds check
of the array accessors. -/
inductive Exception_t where
  | MarshalDirectiveException (message : String)
  | IndexOutOfRangeException
deriving DecidableEq, Repr

/-- `ClothSkinningCoefficient_t`. -/
structure ClothSkinningCoefficient where
  maxDistance : F32
  collisionSphereDistance : F32
deriving DecidableEq, Repr

/-- `ClothSphereColliderPair_t`: two `SphereCollider_t*`. -/
structure ClothSphereColliderPair where
  first : Ptr
  second : Ptr
deriving DecidableEq, Repr

/-- `ClothSphereColliderPair_t..._marshaled_pinvoke`. -/
structure ClothSphereColliderPair_marshaled_pinvoke where
  first : Ptr
  second : Ptr
deriving DecidableEq, Repr

/-- `ClothSphereColliderPair_t..._marshaled_com`. -/
structure ClothSphereColliderPair_marshaled_com where
  first : Ptr
  second : Ptr
deriving DecidableEq, Repr

/-- The runtime's `il2cpp_codegen_get_marshal_directive_exception(msg)`: a
`MarshalDirectiveException` carrying `msg`. -/
def il2cpp_codegen_get_marshal_directive_exception (msg : String) : Exception_t :=
  .MarshalDirectiveException msg

/-- `ClothSphereColliderPair_..._marshal_pinvoke`: builds the exception and
raises it; the value is how the call ends and the content of `marshaled`
afterwards. -/
def ClothSphereColliderPair_marshal_pinvoke (_unmarshaled : ClothSphereColliderPair)
    (marshaled : ClothSphereColliderPair_marshaled_pinvoke) :
    Except Exception_t Unit × ClothSphereColliderPair_marshaled_pinvoke :=
  let firstException := il2cpp_codegen_get_marshal_directive_exception
    "Cannot marshal field '<first>k__BackingField' of type 'ClothSphereColliderPair': Reference type field marshaling is not supported."
  (.error firstException, marshaled)

/-- `ClothSphereColliderPair_..._marshal_pinvoke_back`. -/
def ClothSphereColliderPair_marshal_pinvoke_back
    (_marshaled : ClothSphereColliderPair_marshaled_pinvoke)
    (unmarshaled : ClothSphereColliderPair) :
    Except Exception_t Unit × ClothSphereColliderPair :=
  let firstException := il2cpp_codegen_get_marshal_directive_exception
    "Cannot marshal field '<first>k__BackingField' of type 'ClothSphereColliderPair': Reference type field marshaling is not supported."
  (.error firstException, unmarshaled)

/-- `ClothSphereColliderPair_..._marshal_pinvoke_cleanup`: empty body. -/
def ClothSphereColliderPair_marshal_pinvoke_cleanup
    (marshaled : ClothSphereColliderPair_marshaled_pinvoke) :
    Except Exception_t Unit × ClothSphereColliderPair_marshaled_pinvoke :=
  (.ok (), marshaled)

/-- `ClothSphereColliderPair_..._marshal_com`. -/
def ClothSphereColliderPair_marshal_com (_unmarshaled : ClothSphereColliderPair)
    (marshaled : ClothSphereColliderPair_marshaled_com) :
    Except Exception_t Unit × ClothSphereColliderPair_marshaled_com :=
  let firstException := il2cpp_codegen_get_marshal_directive_exception
    "Cannot marshal field '<first>k__BackingField' of type 'ClothSphereColliderPair': Reference type field marshaling is not supported."
  (.error firstException, marshaled)

/-- `ClothSphereColliderPair_..._marshal_com_back`. -/
def ClothSphereColliderPair_marshal_com_back
    (_marshaled : ClothSphereColliderPair_marshaled_com)
    (unmarshaled : ClothSphereColliderPair) :
    Except Exception_t Unit × ClothSphereColliderPair :=
  let firstException := il2cpp_codegen_get_marshal_directive_exception
    "Cannot marshal field '<first>k__BackingField' of type 'ClothSphereColliderPair': Reference type field marshaling is not supported."
  (.error firstException, unmarshaled)

/-- `ClothSphereColliderPair_..._marshal_com_cleanup`: empty body. -/
def ClothSphereColliderPair_marshal_com_cleanup
    (marshaled : ClothSphereColliderPair_marshaled_com) :
    Except Exception_t Unit × ClothSphereColliderPair_marshaled_com :=
  (.ok (), marshaled)

/-- An il2cpp array `T[]`: the header field `max_length` and the storage
`m_Items` that follows it, read and written by index with no check of its own.
Lengths of runtime arrays fit 32 bits; the accessors rely on it when they
hand `(uint32_t)max_length` to the bounds check. -/
structure RuntimeArray (α : Type) where
  max_length : Nat
  m_Items : Nat → α
  max_length_lt : max_length < 4294967296

/-- The runtime's `IL2CPP_ARRAY_BOUNDS_CHECK(index, length)`, declared in the
il2cpp headers: one unsigned 32-bit comparison, the one its call sites prepare
with their `(uint32_t)` cast of the length.  Both operands are taken as
`uint32_t`, and `IndexOutOfRangeException` is raised unless
`(uint32_t)index < (uint32_t)length`.  The index itself is an
`il2cpp_array_size_t`, which is wider than 32 bits on 64-bit targets. -/
def IL2CPP_ARRAY_BOUNDS_CHECK (index length : Nat) : Except Exception_t Unit :=
  if index % 4294967296 < length % 4294967296 then .ok ()
  else .error .IndexOutOfRangeException

/-- The runtime's `Il2CppCodeGenWriteBarrier`: bookkeeping for the collector
about the slot at `index`; the content of the array is as before. -/
def Il2CppCodeGenWriteBarrier {α : Type} (a : RuntimeArray α) (_index : Nat) : RuntimeArray α :=
  a

namespace RuntimeArray

/-- `GetAt`, the same in the four array types: the bounds check, then
`m_Items[index]` with the index at its full width. -/
def GetAt {α : Type} (a : RuntimeArray α) (index : Nat) : Except Exception_t α :=
  match IL2CPP_ARRAY_BOUNDS_CHECK index (a.max_length % 4294967296) with
  | .error e => .error e
  | .ok () => .ok (a.m_Items index)

/-- `GetAddressAt`, the same in the four array types; the address
`m_Items + index` is given by the index of the slot. -/
def GetAddressAt {α : Type} (a : RuntimeArray α) (index : Nat) : Except Exception_t Nat :=
  match IL2CPP_ARRAY_BOUNDS_CHECK index (a.max_length % 4294967296) with
  | .error e => .error e
  | .ok () => .ok index

/-- `GetAtUnchecked`. -/
def GetAtUnchecked {α : Type} (a : RuntimeArray α) (index : Nat) : α := a.m_Items index

/-- `GetAddressAtUnchecked`. -/
def GetAddressAtUnchecked {α : Type} (_a : RuntimeArray α) (index : Nat) : Nat := index

/-- The assignment `m_Items[index] = value`. -/
def store {α : Type} (a : RuntimeArray α) (index : Nat) (value : α) : RuntimeArray α :=
  ⟨a.max_length, Function.update a.m_Items index value, a.max_length_lt⟩

end RuntimeArray

/-- `Vector3[]`. -/
abbrev Vector3U5BU5D := RuntimeArray Vector3
/-- `ClothSkinningCoefficient[]`. -/
abbrev ClothSkinningCoefficientU5BU5D := RuntimeArray ClothSkinningCoefficient
/-- `CapsuleCollider[]`, an array of references. -/
abbrev CapsuleColliderU5BU5D := RuntimeArray Ptr
/-- `ClothSphereColliderPair[]`. -/
abbrev ClothSphereColliderPairU5BU5D := RuntimeArray ClothSphereColliderPair

/-- `Vector3U5BU5D::SetAt`; the value is how the call ends and the array
afterwards. -/
def Vector3U5BU5D.SetAt (a : Vector3U5BU5D) (index : Nat) (value : Vector3) :
    Except Exception_t Unit × Vector3U5BU5D :=
  match IL2CPP_ARRAY_BOUNDS_CHECK index (a.max_length % 4294967296) with
  | .error e => (.error e, a)
  | .ok () => (.ok (), a.store index value)

/-- `Vector3U5BU5D::SetAtUnchecked`. -/
def Vector3U5BU5D.SetAtUnchecked (a : Vector3U5BU5D) (index : Nat) (value : Vector3) :
    Vector3U5BU5D :=
  a.store index value

/-- `ClothSkinningCoefficientU5BU5D::SetAt`. -/
def ClothSkinningCoefficientU5BU5D.SetAt (a : ClothSkinningCoefficientU5BU5D) (index : Nat)
    (value : ClothSkinningCoefficient) :
    Except Exception_t Unit × ClothSkinningCoefficientU5BU5D :=
  match IL2CPP_ARRAY_BOUNDS_CHECK index (a.max_length % 4294967296) with
  | .error e => (.error e, a)
  | .ok () => (.ok (), a.store index value)

/-- `ClothSkinningCoefficientU5BU5D::SetAtUnchecked`. -/
def ClothSkinningCoefficientU5BU5D.SetAtUnchecked (a : ClothSkinningCoefficientU5BU5D)
    (index : Nat) (value : ClothSkinningCoefficient) : ClothSkinningCoefficientU5BU5D :=
  a.store index value

/-- `CapsuleColliderU5BU5D::SetAt`: the assignment, then the write barrier. -/
def CapsuleColliderU5BU5D.SetAt (a : CapsuleColliderU5BU5D) (index : Nat) (value : Ptr) :
    Except Exception_t Unit × CapsuleColliderU5BU5D :=
  match IL2CPP_ARRAY_BOUNDS_CHECK index (a.max_length % 4294967296) with
  | .error e => (.error e, a)
  | .ok () => (.ok (), Il2CppCodeGenWriteBarrier (a.store index value) index)

/-- `CapsuleColliderU5BU5D::SetAtUnchecked`. -/
def CapsuleColliderU5BU5D.SetAtUnchecked (a : CapsuleColliderU5BU5D) (index : Nat)
    (value : Ptr) : CapsuleColliderU5BU5D :=
  Il2CppCodeGenWriteBarrier (a.store index value) index

/-- `ClothSphereColliderPairU5BU5D::SetAt`: the assignment, then the write
barrier on the first field of the slot. -/
def ClothSphereColliderPairU5BU5D.SetAt (a : ClothSphereColliderPairU5BU5D) (index : Nat)
    (value : ClothSphereColliderPair) :
    Except Exception_t Unit × ClothSphereColliderPairU5BU5D :=
  match IL2CPP_ARRAY_BOUNDS_CHECK index (a.max_length % 4294967296) with
  | .error e => (.error e, a)
  | .ok () => (.ok (), Il2CppCodeGenWriteBarrier (a.store index value) index)

/-- `ClothSphereColliderPairU5BU5D::SetAtUnchecked`. -/
def ClothSphereColliderPairU5BU5D.SetAtUnchecked (a : ClothSphereColliderPairU5BU5D)
    (index : Nat) (value : ClothSphereColliderPair) : ClothSphereColliderPairU5BU5D :=
  Il2CppCodeGenWriteBarrier (a.store index value) index

/-! ## Names of the wrapper functions -/

/-- The C name of the wrapper function that owns each call site. -/
def CallSite.wrapperName : CallSite → String
  | .get_vertices => "Cloth_get_vertices_mCED0A9D74601DE52BACAAFEEF847131810A07EA2"
  | .get_normals => "Cloth_get_normals_mDE5E8F213E05AC73C2861367BFEFF2726C857E5D"
  | .get_coefficients => "Cloth_get_coefficients_mFD7EB4A4A5B997FDE2787AEF924C4AD78510AB6C"
  | .set_coefficients => "Cloth_set_coefficients_m3F62405E90C802A2B9761A4E131CD5C8412E029A"
  | .get_capsuleColliders => "Cloth_get_capsuleColliders_m34E82DDD57B77A50F7BCB10DD5AE6148D2D389D1"
  | .set_capsuleColliders => "Cloth_set_capsuleColliders_m3235BE8A0E6B9108D6A8A3F7D11991571562D83D"
  | .get_sphereColliders => "Cloth_get_sphereColliders_mDDE201272A0BC03A8A776C7D15D5F748F8DB373F"
  | .set_sphereColliders => "Cloth_set_sphereColliders_m1B3D44590D44B6C0666614AFB1C3EAB694BCA468"
  | .get_sleepThreshold => "Cloth_get_sleepThreshold_m1B304484FAAD6101AADAF9FB3BDCBA058A59D8C0"
  | .set_sleepThreshold => "Cloth_set_sleepThreshold_m4151FE84347318B1CCF6E05D5D2970091DBB7034"
  | .get_bendingStiffness => "Cloth_get_bendingStiffness_m6C6BF65C71036864EA55FC287505797C3D6F6ACB"
  | .set_bendingStiffness => "Cloth_set_bendingStiffness_m90110047F4CCFA556073248AECD2EE1F79A8034D"
  | .get_stretchingStiffness => "Cloth_get_stretchingStiffness_m8D1FCD7A1F2D4EEDACE7DDAACED977EA5BA4139C"
  | .set_stretchingStiffness => "Cloth_set_stretchingStiffness_m4B0A4FDA719EC784178ED9C25EC6C21BCEE73CDE"
  | .get_damping => "Cloth_get_damping_m7554F6DC3355BB4FD3677E4CA8FFBAC2FF8E285B"
  | .set_damping => "Cloth_set_damping_m4D1E540B2E58E7E96AD1FD3A30E39AC79062BFA5"
  | .get_useGravity => "Cloth_get_useGravity_mB719AC46F791BB975606C95F61921C0BBB682F40"
  | .set_useGravity => "Cloth_set_useGravity_m2B41A8BBD2F45201F736A7FF9333B607B0944A2D"
  | .get_enabled => "Cloth_get_enabled_m8FBD0C2569D07854E8AE41B4EA6987C2D2974E1A"
  | .set_enabled => "Cloth_set_enabled_m314D18DBB1943E9984694DBAD2535EFDA393B3DB"
  | .get_friction => "Cloth_get_friction_m9901130FAE8B86E65F1A2BCA7FEC5C7406B627F3"
  | .set_friction => "Cloth_set_friction_m176B626212006C70AB17F2A25074356DD43C2F27"
  | .get_collisionMassScale => "Cloth_get_collisionMassScale_m8E238BD5E6A305603175163AF17C9BA364F57109"
  | .set_collisionMassScale => "Cloth_set_collisionMassScale_mB2A34759FFC104E82F66557113A6FD53A4465A1C"
  | .get_enableContinuousCollision => "Cloth_get_enableContinuousCollision_mD01452D0B91495479201DB31B227DA5B58F58403"
  | .set_enableContinuousCollision => "Cloth_set_enableContinuousCollision_m6A5A4AAA3D7FF792BD0F0BB4986AA8B5250ABE33"
  | .get_useVirtualParticles => "Cloth_get_useVirtualParticles_m40A99317F45E81DF8D0E6C1863CF948755188A2F"
  | .set_useVirtualParticles => "Cloth_set_useVirtualParticles_mE8058B9161BE16A3945C56DA0C21B8EDE325637E"
  | .get_worldVelocityScale => "Cloth_get_worldVelocityScale_mBD2081338FC233BF3D8DB155058C7817135A2FE2"
  | .set_worldVelocityScale => "Cloth_set_worldVelocityScale_m560E8BACD096D26085410D5CBA2EA65E7E995108"
  | .get_worldAccelerationScale => "Cloth_get_worldAccelerationScale_m387BFE853B711BE5A6CF182F99D3B233F411A453"
  | .set_worldAccelerationScale => "Cloth_set_worldAccelerationScale_m9191999C9886FECEB8C89E01D95E9E309D60E984"
  | .get_clothSolverFrequency => "Cloth_get_clothSolverFrequency_mDBB7222AB0355E19195C513B6DDEED35F88A7B4C"
  | .set_clothSolverFrequency => "Cloth_set_clothSolverFrequency_m75608DE320A074915C3B3244E6A4C38CE48CD5E9"
  | .get_useTethers => "Cloth_get_useTethers_m46ACD80C27CE2B31BEC725E70A06005C3F6556DF"
  | .set_useTethers => "Cloth_set_useTethers_m5489A91F922A09FAE9EA41A5BA005C40325B93F3"
  | .get_stiffnessFrequency => "Cloth_get_stiffnessFrequency_m6C895A02AE142457DA570223C4855DD9F3B889B4"
  | .set_stiffnessFrequency => "Cloth_set_stiffnessFrequency_m55D281DBF6466517F0F0E5BCE7EBFA33AA4B3D68"
  | .get_selfCollisionDistance => "Cloth_get_selfCollisionDistance_mEF57920DE88E7EE7316D1B976D900EBEA97187D3"
  | .set_selfCollisionDistance => "Cloth_set_selfCollisionDistance_m063905EE7B17B313361744B2A9298891BD04458B"
  | .get_selfCollisionStiffness => "Cloth_get_selfCollisionStiffness_m3AB07989A94F1003B1A503786035DA9798750B79"
  | .set_selfCollisionStiffness => "Cloth_set_selfCollisionStiffness_m135046E1757E8DC1FCCBE36A2B3639C2F590F148"
  | .ClearTransformMotion => "Cloth_ClearTransformMotion_m753025BD5BC096D05442CD608B7A92E5F50C5EAB"
  | .GetSelfAndInterCollisionIndices => "Cloth_GetSelfAndInterCollisionIndices_mD9966556AF927D7AF90DEEC019A380180BF373D8"
  | .SetSelfAndInterCollisionIndices => "Cloth_SetSelfAndInterCollisionIndices_mD0908641806B573F05B8948FDD63E898B8EE29DB"
  | .GetVirtualParticleIndices => "Cloth_GetVirtualParticleIndices_m278174767DD72C2F1859D6D7A040B0EB5D7543F9"
  | .SetVirtualParticleIndices => "Cloth_SetVirtualParticleIndices_mDC58009B42A02B3AC350116A0A696206A9AF880B"
  | .GetVirtualParticleWeights => "Cloth_GetVirtualParticleWeights_mC2B8785C9A37C4A487D0088F21C0FFF2804E13DD"
  | .SetVirtualParticleWeights => "Cloth_SetVirtualParticleWeights_m9529D339A6850E153581E70CC951DC686934E377"
  | .SetEnabledFading => "Cloth_SetEnabledFading_mD98337A5404F8314CB32D91644F6995579D9855F"
  | .get_externalAcceleration_Injected => "Cloth_get_externalAcceleration_Injected_m447914E289BF0CDDD0F7003A9BE2C0D1F062AF86"
  | .set_externalAcceleration_Injected => "Cloth_set_externalAcceleration_Injected_m7D6915CC37E94AA29764A5B02BC19D27D41998AD"
  | .get_randomAcceleration_Injected => "Cloth_get_randomAcceleration_Injected_m97B63C18E1B3FB737D9330FAE693F3EF3A03A052"
  | .set_randomAcceleration_Injected => "Cloth_set_randomAcceleration_Injected_m232B588EF417B76FAFA2B28669EC76F5383AD30A"
  | .Raycast_Injected => "Cloth_Raycast_Injected_mD254C34D2EFA5B8F3278CF864D6C62B6564DA46C"

/-- The managed method name embedded in the C name of a wrapper: what stands
between the leading `Cloth_` (6 characters) and the trailing `_m` with its 40
hash digits (42 characters). -/
def methodNameOf (wrapperName : String) : List Char :=
  ((wrapperName.toList.drop 6).reverse.drop 42).reverse

/-- Whether a C name has the shape `Cloth_` ... `_m` and 40 hexadecimal
digits. -/
def isWrapperName (wrapperName : String) : Bool :=
  "Cloth_".toList.isPrefixOf wrapperName.toList
    && ((wrapperName.toList.reverse.take 42).reverse.take 2 == "_m".toList)
    && ((wrapperName.toList.reverse.take 40).all
          (fun ch => ch.isDigit || ('A' ≤ ch && ch ≤ 'F')))
    && decide (48 ≤ wrapperName.toList.length)

/-! ## A sample host -/

/-- The zero value of a type. -/
def Ty.zero : (t : Ty) → t.denote
  | .void => ()
  | .object => 0
  | .single => F32.zero
  | .boolean => false
  | .vector3Ref => Vector3.zero
  | .rayRef => ⟨Vector3.zero, Vector3.zero⟩
  | .booleanRef => false
  | .raycastHitRef => RaycastHit.zero

/-- Process start: every static function pointer is null and nothing has
happened yet. -/
def World.init {σ : Type} (st : Store σ) : World σ := ⟨fun _ => none, st, []⟩

/-- A heap in which every object has zeroed fields. -/
def Store.blank {σ : Type} (e : σ) : Store σ := ⟨e, fun _ => ⟨0, F32.zero, false⟩⟩

/-- Symbol table of the sample engine: the two solver-frequency operations
have entry points 1 and 2, every other key of the file has entry point 3, and
no other key is known. -/
def frequencyStore.resolve (key : String) : Option EntryPoint :=
  if key = CallSite.get_clothSolverFrequency.key then some 1
  else if key = CallSite.set_clothSolverFrequency.key then some 2
  else if CallSite.all.any (fun c => c.key == key) then some 3
  else none

/-- Operations of the sample engine: entry point 1 reads the frequency stored
for the handle, entry point 2 stores its argument as the frequency of the
handle, every other entry point does nothing and returns zero. -/
def frequencyStore.native (p : EntryPoint) (s : Sig) (this : Handle) (args : Args s.params)
    (st : Store (Handle → F32)) : Reply (Handle → F32) s :=
  match p, s, args with
  | 1, ⟨[], .single⟩, _ => ⟨st, .ok (st.engine this, ())⟩
  | 2, ⟨[.single], .void⟩, (v, ()) =>
    ⟨{ st with engine := Function.update st.engine this v }, .ok ((), (v, ()))⟩
  | _, s, args => ⟨st, .ok (Ty.zero s.ret, args)⟩

/-- The engine as a store in which `get_clothSolverFrequency` returns the
value last given to `set_clothSolverFrequency`, per handle. -/
def frequencyStore : Host (Handle → F32) := ⟨frequencyStore.resolve, frequencyStore.native⟩

/-- A host whose engine provides none of the operations. -/
def emptyHost : Host Unit := ⟨fun _ => none, fun _ s _ args st => ⟨st, .ok (Ty.zero s.ret, args)⟩⟩

/-- The sample engine before its library is loaded: the same operations, but
no key resolves yet. -/
def frequencyStore.unloaded : Host (Handle → F32) := ⟨fun _ => none, frequencyStore.native⟩

/-! ## Vocabulary for the statements -/

/-- The entry point a call at site `c` goes through in world `w`: the cached
pointer, or the resolver's answer when the cache is still null. -/
def World.entry {σ : Type} (H : Host σ) (w : World σ) (c : CallSite) : Option EntryPoint :=
  match w.icall_func c with
  | some p => some p
  | none => H.resolve_icall c.key

/-- The resolver calls a call at site `c` makes in world `w`: one when the
cache is still null, none otherwise. -/
def World.resolution {σ : Type} (w : World σ) (c : CallSite) : List Event :=
  match w.icall_func c with
  | some _ => []
  | none => [Event.resolve c.key]

/-- A world whose caches hold only what the resolver returns for the key of
their call site; every world reached from process start is of this kind. -/
def World.Sound {σ : Type} (H : Host σ) (w : World σ) : Prop :=
  ∀ c p, w.icall_func c = some p → H.resolve_icall c.key = some p

/-- Whether an event is a call through an entry point. -/
def Event.isInvoke : Event → Bool
  | .resolve _ => false
  | .invoke _ _ _ => true

/-- The events a call added to the log of the world `w0` it started in. -/
def World.since {σ : Type} (w w0 : World σ) : List Event := w.log.drop w0.log.length

/-- How many times external entry points were invoked between `w0` and `w`. -/
def World.invocationsSince {σ : Type} (w w0 : World σ) : Nat :=
  (w.since w0).countP Event.isInvoke

/-- How many times the resolver was called between `w0` and `w`. -/
def World.resolutionsSince {σ : Type} (w w0 : World σ) : Nat :=
  (w.since w0).countP Event.isResolve

/-- The text between the parentheses of a key. -/
def keyParamText (key : String) : List Char :=
  ((key.toList.dropWhile (fun ch => ch != '(')).drop 1).takeWhile (fun ch => ch != ')')

/-- The number of parameter types listed between the parentheses of a key:
none for `()`, otherwise one more than the number of commas (no type name in
this file contains a comma). -/
def keyArity (key : String) : Nat :=
  match keyParamText key with
  | [] => 0
  | ch :: rest => (ch :: rest).count ',' + 1

/-- Plain forwarding of an operation, in the words of the spec: with the entry
point of the operation at hand (cached, or resolved now), invoke it once with
the handle and the arguments and hand back nothing; with none to be had, fail
with the resolver's failure. -/
def plainForward {σ : Type} (H : Host σ) (c : CallSite) (this : Handle)
    (args : Args c.sig.params) (w : World σ) : Outcome σ Unit :=
  match w.entry H c with
  | some p =>
    ⟨(H.native p c.sig this args w.store).result.map (fun _ => ()),
     { icall_func := Function.update w.icall_func c (some p),
       store := (H.native p c.sig this args w.store).store,
       log := w.log ++ w.resolution c ++ [Event.invoke p this (Args.toVals args)] }⟩
  | none =>
    ⟨.error (.missingMethod c.key), { w with log := w.log ++ [Event.resolve c.key] }⟩

/-- The operations of the layer on a Cloth handle, with their arguments: the
55 icall wrappers and the functions of the file built without a call site of
their own. -/
inductive Op where
  | wrapper (c : CallSite) (args : Args c.sig.params)
  | get_externalAcceleration
  | set_externalAcceleration (value : Vector3)
  | get_randomAcceleration
  | set_randomAcceleration (value : Vector3)
  | get_solverFrequency
  | set_solverFrequency (value : Bool)
  | get_useContinuousCollision
  | set_useContinuousCollision (value : F32)
  | get_selfCollision
  | SetEnabledFading (enabled : Bool)
  | Raycast (ray : Ray) (maxDistance : F32) (hasHit : Bool)

/-- The world an operation leaves when called on `this` in world `w`. -/
def Op.after {σ : Type} (H : Host σ) (this : Handle) : Op → World σ → World σ
  | .wrapper c args, w => (icall H c this args w).world
  | .get_externalAcceleration, w => (Cloth_get_externalAcceleration H this w).world
  | .set_externalAcceleration value, w => (Cloth_set_externalAcceleration H this value w).world
  | .get_randomAcceleration, w => (Cloth_get_randomAcceleration H this w).world
  | .set_randomAcceleration value, w => (Cloth_set_randomAcceleration H this value w).world
  | .get_solverFrequency, w => (Cloth_get_solverFrequency H this w).world
  | .set_solverFrequency value, w => (Cloth_set_solverFrequency H this value w).world
  | .get_useContinuousCollision, w => (Cloth_get_useContinuousCollision this w).world
  | .set_useContinuousCollision value, w => (Cloth_set_useContinuousCollision this value w).world
  | .get_selfCollision, w => (Cloth_get_selfCollision this w).world
  | .SetEnabledFading enabled, w =>
    (Cloth_SetEnabledFading_mFC216321A4512E3BD8A3EA2557F723E92FBDE12B H this enabled w).world
  | .Raycast ray maxDistance hasHit, w => (Cloth_Raycast H this ray maxDistance hasHit w).world

/-- The message of the exception the marshaling stubs raise. -/
def firstFieldMessage : String :=
  "Cannot marshal field '<first>k__BackingField' of type 'ClothSphereColliderPair': Reference type field marshaling is not supported."

/-- A `SetAt` round-trips with `GetAt`: at an index below `max_length` it
returns, `GetAt` at that index then returns the value written, `GetAt` at every
other index below `max_length` returns what it returned before, and the length
is as before. -/
def RoundTrips {α : Type}
    (SetAt : RuntimeArray α → Nat → α → Except Exception_t Unit × RuntimeArray α) : Prop :=
  ∀ (a : RuntimeArray α) (i : Nat) (v : α), i < a.max_length →
    (SetAt a i v).1 = .ok () ∧
    (SetAt a i v).2.GetAt i = .ok v ∧
    (∀ j, j < a.max_length → j ≠ i → (SetAt a i v).2.GetAt j = a.GetAt j) ∧
    (SetAt a i v).2.max_length = a.max_length

namespace F32

theorem magnitude_eq (x : F32) : x.magnitude = x.exponent * 8388608 + x.mantissa := by
  unfold magnitude exponent mantissa
  omega

theorem gt_zero_eq (x : F32) :
    gt x zero = (!x.isNaN && !x.sign && decide (0 < x.magnitude)) := by
  have hz : zero.isNaN = false := by decide
  have hk : zero.key = 0 := by decide
  unfold gt
  rw [hz, hk]
  unfold key
  cases hs : x.sign <;> simp

theorem toRat_pos_iff (x : F32) : 0 < x.toRat ↔ x.sign = false ∧ 0 < x.magnitude := by
  have hp : (0 : ℚ) <
      (2 : ℚ) ^ (if x.exponent = 0 then (-149 : Int) else (x.exponent : Int) - 150) :=
    zpow_pos (by norm_num) _
  have hm : x.magnitude = x.exponent * 8388608 + x.mantissa := magnitude_eq x
  unfold toRat
  cases hs : x.sign
  · simp only [Bool.false_eq_true, if_false, one_mul, true_and]
    rw [mul_pos_iff_of_pos_right hp]
    by_cases he : x.exponent = 0
    · simp only [he, if_true, Nat.cast_pos]
      omega
    · simp only [he, if_false]
      constructor
      · intro _; omega
      · intro _; positivity
  · simp only [if_true, Bool.true_eq_false, false_and, iff_false, not_lt]
    have : (0:ℚ) ≤
        (if x.exponent = 0 then (x.mantissa : ℚ) else (8388608 + x.mantissa : ℚ)) := by
      split <;> positivity
    nlinarith [mul_nonneg this hp.le]

/-- The comparison `x > 0.0f` holds exactly for the positive floats. -/
theorem gt_zero_iff (x : F32) : gt x zero = true ↔ x.IsPos := by
  rw [gt_zero_eq, IsPos, toRat_pos_iff]
  cases x.isNaN <;> cases x.sign <;> simp

theorem toRat_zero : zero.toRat = 0 := by
  simp [toRat, zero, ofBits, sign, exponent, mantissa]

theorem toRat_c120 : c120.toRat = 120 := by
  have h1 : c120.sign = false := by decide
  have h2 : c120.exponent = 133 := by decide
  have h3 : c120.mantissa = 7340032 := by decide
  unfold toRat
  rw [h1, h2, h3]
  norm_num

theorem toRat_half : half.toRat = 1 / 2 := by
  have h1 : half.sign = false := by decide
  have h2 : half.exponent = 126 := by decide
  have h3 : half.mantissa = 0 := by decide
  unfold toRat
  rw [h1, h2, h3]
  norm_num

end F32

/-! ## The shim, case by case -/

theorem icall_cached {σ : Type} (H : Host σ) (c : CallSite) (this : Handle)
    (args : Args c.sig.params) (w : World σ) (p : EntryPoint)
    (hc : w.icall_func c = some p) :
    icall H c this args w = invoke H c p this args w := by
  unfold icall
  rw [hc]

theorem icall_fresh {σ : Type} (H : Host σ) (c : CallSite) (this : Handle)
    (args : Args c.sig.params) (w : World σ) (p : EntryPoint)
    (hc : w.icall_func c = none) (hr : H.resolve_icall c.key = some p) :
    icall H c this args w =
      invoke H c p this args
        { w with log := w.log ++ [Event.resolve c.key],
                 icall_func := Function.update w.icall_func c (some p) } := by
  unfold icall
  rw [hc]
  simp only [hr]

theorem icall_missing {σ : Type} (H : Host σ) (c : CallSite) (this : Handle)
    (args : Args c.sig.params) (w : World σ)
    (hc : w.icall_func c = none) (hr : H.resolve_icall c.key = none) :
    icall H c this args w =
      ⟨.error (.missingMethod c.key), { w with log := w.log ++ [Event.resolve c.key] }⟩ := by
  unfold icall
  rw [hc]
  simp only [hr]

/-- A call whose entry point is available: the native operation runs once on
the current store, the cache of the site holds the entry point afterwards, and
the log grows by the resolver call (if any) and the invocation. -/
theorem icall_entry {σ : Type} (H : Host σ) (c : CallSite) (this : Handle)
    (args : Args c.sig.params) (w : World σ) (p : EntryPoint)
    (he : w.entry H c = some p) :
    icall H c this args w =
      ⟨(H.native p c.sig this args w.store).result,
       { icall_func := Function.update w.icall_func c (some p),
         store := (H.native p c.sig this args w.store).store,
         log := w.log ++ w.resolution c ++ [Event.invoke p this (Args.toVals args)] }⟩ := by
  unfold World.entry at he
  unfold World.resolution
  cases hc : w.icall_func c with
  | some q =>
    rw [hc] at he
    have hqp : q = p := Option.some.inj he
    subst hqp
    have hu : Function.update w.icall_func c (some q) = w.icall_func := by
      rw [← hc, Function.update_eq_self]
    rw [icall_cached H c this args w q hc, hu]
    simp [invoke, hc]
  | none =>
    rw [hc] at he
    rw [icall_fresh H c this args w p hc he]
    simp [invoke]

theorem World.init_sound {σ : Type} (H : Host σ) (st : Store σ) : (World.init st).Sound H := by
  intro c p h
  cases h

/-- Soundness of the caches is kept by every call through the shim. -/
theorem icall_sound {σ : Type} (H : Host σ) (c : CallSite) (this : Handle)
    (args : Args c.sig.params) (w : World σ) (hs : w.Sound H) :
    (icall H c this args w).world.Sound H := by
  cases hc : w.icall_func c with
  | some q =>
    rw [icall_cached H c this args w q hc]
    exact hs
  | none =>
    cases hr : H.resolve_icall c.key with
    | none =>
      rw [icall_missing H c this args w hc hr]
      exact hs
    | some p =>
      rw [icall_fresh H c this args w p hc hr]
      intro d q hd
      simp only [invoke] at hd
      by_cases hdc : d = c
      · subst hdc
        rw [Function.update_same] at hd
        cases hd
        exact hr
      · rw [Function.update_noteq hdc] at hd
        exact hs d q hd

theorem World.entry_of_sound {σ : Type} (H : Host σ) (w : World σ) (c : CallSite)
    (hs : w.Sound H) : w.entry H c = H.resolve_icall c.key := by
  unfold World.entry
  cases hc : w.icall_func c with
  | some q => exact (hs c q hc).symm
  | none => rfl

/-! ## The derived solver-frequency property -/

/-- C1: whenever `Cloth_get_clothSolverFrequency` reports the float `f` for a
handle, `Cloth_get_solverFrequency` on that handle returns a boolean that is
true exactly when `f` is positive; it is false when `f` denotes zero and when
`f` denotes a negative number, and the call leaves the same world as the read
of the frequency. -/
theorem get_solverFrequency_true_iff_pos {σ : Type} (H : Host σ) (this : Handle)
    (w : World σ) (f : F32)
    (hf : (Cloth_get_clothSolverFrequency H this w).result = .ok f) :
    ∃ b : Bool, (Cloth_get_solverFrequency H this w).result = .ok b ∧
      (Cloth_get_solverFrequency H this w).world
        = (Cloth_get_clothSolverFrequency H this w).world ∧
      (b = true ↔ f.IsPos) ∧ (f.toRat = 0 → b = false) ∧ (f.toRat < 0 → b = false) := by
  refine ⟨F32.gt f F32.zero, ?_, rfl, F32.gt_zero_iff f, ?_, ?_⟩
  · simp [Cloth_get_solverFrequency, Outcome.map, hf, Except.map]
  · intro h0
    rw [Bool.eq_false_iff]
    intro hb
    have := ((F32.gt_zero_iff f).1 hb).2
    rw [h0] at this
    exact lt_irrefl _ this
  · intro h0
    rw [Bool.eq_false_iff]
    intro hb
    have := ((F32.gt_zero_iff f).1 hb).2
    exact lt_asymm this h0

/-- Witness of C1: the sample engine stores 120.0 for handle 1. -/
theorem get_solverFrequency_true_iff_pos_witness :
    (Cloth_get_clothSolverFrequency frequencyStore 1
        (World.init (Store.blank (fun _ => F32.c120)))).result = .ok F32.c120 ∧
    ∃ b : Bool, (Cloth_get_solverFrequency frequencyStore 1
        (World.init (Store.blank (fun _ => F32.c120)))).result = .ok b ∧
      (Cloth_get_solverFrequency frequencyStore 1
        (World.init (Store.blank (fun _ => F32.c120)))).world
        = (Cloth_get_clothSolverFrequency frequencyStore 1
            (World.init (Store.blank (fun _ => F32.c120)))).world ∧
      (b = true ↔ F32.c120.IsPos) ∧ (F32.c120.toRat = 0 → b = false) ∧
      (F32.c120.toRat < 0 → b = false) :=
  ⟨rfl, get_solverFrequency_true_iff_pos frequencyStore 1
    (World.init (Store.blank (fun _ => F32.c120))) F32.c120 rfl⟩

/-- Past its null check, `Cloth_set_solverFrequency` is the call of
`Cloth_set_clothSolverFrequency` with the constant it picked. -/
theorem set_solverFrequency_eq {σ : Type} (H : Host σ) (this : Handle)
    (b : Bool) (w : World σ) (hn : this ≠ null) :
    Cloth_set_solverFrequency H this b w
        = Cloth_set_clothSolverFrequency H this (if b then F32.c120 else F32.zero) w := by
  have hc : NullCheck this = .ok () := if_neg hn
  simp [Cloth_set_solverFrequency, hc]

/-- C2: for a non-null handle, `Cloth_set_solverFrequency(handle, b)` is one
call of `Cloth_set_clothSolverFrequency` on the same handle, with `120.0f`
when `b` is true and `0.0f` when `b` is false; the two constants denote 120
and 0. -/
theorem set_solverFrequency_calls_setter {σ : Type} (H : Host σ) (this : Handle)
    (b : Bool) (w : World σ) (hn : this ≠ null) :
    Cloth_set_solverFrequency H this b w
        = Cloth_set_clothSolverFrequency H this (if b then F32.c120 else F32.zero) w ∧
    F32.c120.toRat = 120 ∧ F32.zero.toRat = 0 ∧ F32.zero.bits = 0 :=
  ⟨set_solverFrequency_eq H this b w hn, F32.toRat_c120, F32.toRat_zero, rfl⟩

/-- Witness of C2: handle 1, value true, at process start of the sample
engine. -/
theorem set_solverFrequency_calls_setter_witness :
    (1 : Handle) ≠ null ∧
    (Cloth_set_solverFrequency frequencyStore 1 true
        (World.init (Store.blank (fun _ => F32.zero)))
      = Cloth_set_clothSolverFrequency frequencyStore 1
          (if true then F32.c120 else F32.zero)
          (World.init (Store.blank (fun _ => F32.zero))) ∧
    F32.c120.toRat = 120 ∧ F32.zero.toRat = 0 ∧ F32.zero.bits = 0) :=
  ⟨by decide,
   set_solverFrequency_calls_setter frequencyStore 1 true
    (World.init (Store.blank (fun _ => F32.zero))) (by decide)⟩

/-! ## Scenario 1 on the sample engine -/

theorem frequencyStore_get (h : Handle) (w : World (Handle → F32))
    (hs : w.Sound frequencyStore) :
    (Cloth_get_clothSolverFrequency frequencyStore h w).result = .ok (w.store.engine h) ∧
    (Cloth_get_clothSolverFrequency frequencyStore h w).world.store = w.store ∧
    (Cloth_get_clothSolverFrequency frequencyStore h w).world.Sound frequencyStore := by
  have he : w.entry frequencyStore .get_clothSolverFrequency = some 1 := by
    rw [World.entry_of_sound _ _ _ hs]
    rfl
  refine ⟨?_, ?_, icall_sound frequencyStore .get_clothSolverFrequency h () w hs⟩
  · unfold Cloth_get_clothSolverFrequency
    rw [icall_entry frequencyStore .get_clothSolverFrequency h () w 1 he]
    rfl
  · unfold Cloth_get_clothSolverFrequency
    rw [icall_entry frequencyStore .get_clothSolverFrequency h () w 1 he]
    rfl

theorem frequencyStore_set (h : Handle) (v : F32) (w : World (Handle → F32))
    (hs : w.Sound frequencyStore) :
    (Cloth_set_clothSolverFrequency frequencyStore h v w).result = .ok () ∧
    (Cloth_set_clothSolverFrequency frequencyStore h v w).world.store.engine h = v ∧
    (Cloth_set_clothSolverFrequency frequencyStore h v w).world.Sound frequencyStore := by
  have he : w.entry frequencyStore .set_clothSolverFrequency = some 2 := by
    rw [World.entry_of_sound _ _ _ hs]
    rfl
  refine ⟨?_, ?_, icall_sound frequencyStore .set_clothSolverFrequency h (v, ()) w hs⟩
  · unfold Cloth_set_clothSolverFrequency
    rw [icall_entry frequencyStore .set_clothSolverFrequency h (v, ()) w 2 he]
    rfl
  · unfold Cloth_set_clothSolverFrequency
    rw [icall_entry frequencyStore .set_clothSolverFrequency h (v, ()) w 2 he]
    exact Function.update_same h v w.store.engine

/-- C3: on the engine that stores the solver frequency per handle, from any
world whose caches are sound and for any non-null handle: after the frequency
is set to `0.0f` the derived boolean reads false; after
`Cloth_set_solverFrequency(true)` the frequency reads `120.0f`; after a
following `Cloth_set_solverFrequency(false)` it reads `0.0f`; every call of
the scenario returns normally. -/
theorem scenario_one_solverFrequency (h : Handle) (w0 : World (Handle → F32))
    (hn : h ≠ null) (hs : w0.Sound frequencyStore) :
    let r1 := Cloth_set_clothSolverFrequency frequencyStore h F32.zero w0
    let r2 := Cloth_get_solverFrequency frequencyStore h r1.world
    let r3 := Cloth_set_solverFrequency frequencyStore h true r2.world
    let r4 := Cloth_get_clothSolverFrequency frequencyStore h r3.world
    let r5 := Cloth_set_solverFrequency frequencyStore h false r4.world
    let r6 := Cloth_get_clothSolverFrequency frequencyStore h r5.world
    r1.result = .ok () ∧ r2.result = .ok false ∧ r3.result = .ok () ∧
      r4.result = .ok F32.c120 ∧ r5.result = .ok () ∧ r6.result = .ok F32.zero := by
  intro r1 r2 r3 r4 r5 r6
  obtain ⟨h1r, h1e, h1s⟩ := frequencyStore_set h F32.zero w0 hs
  obtain ⟨h2r, h2st, h2s⟩ := frequencyStore_get h r1.world h1s
  have e2 : r2 = (Cloth_get_clothSolverFrequency frequencyStore h r1.world).map
      (fun L_0 => F32.gt L_0 F32.zero) := rfl
  have h2s' : r2.world.Sound frequencyStore := h2s
  have e3 : r3 = Cloth_set_clothSolverFrequency frequencyStore h F32.c120 r2.world :=
    set_solverFrequency_eq frequencyStore h true r2.world hn
  obtain ⟨h3r, h3e, h3s⟩ := frequencyStore_set h F32.c120 r2.world h2s'
  rw [← e3] at h3r h3e h3s
  obtain ⟨h4r, h4st, h4s⟩ := frequencyStore_get h r3.world h3s
  have e5 : r5 = Cloth_set_clothSolverFrequency frequencyStore h F32.zero r4.world :=
    set_solverFrequency_eq frequencyStore h false r4.world hn
  obtain ⟨h5r, h5e, h5s⟩ := frequencyStore_set h F32.zero r4.world h4s
  rw [← e5] at h5r h5e h5s
  obtain ⟨h6r, -, -⟩ := frequencyStore_get h r5.world h5s
  refine ⟨h1r, ?_, h3r, ?_, h5r, ?_⟩
  · rw [e2]
    simp only [Outcome.map, h2r, Except.map]
    rw [h1e]
    rfl
  · rw [show r4.result = _ from h4r, h3e]
  · rw [show r6.result = _ from h6r, h5e]

/-- Witness of C3: handle 1 at process start, the engine holding 120.0 for
every handle. -/
theorem scenario_one_solverFrequency_witness :
    (1 : Handle) ≠ null ∧ (World.init (Store.blank (fun _ => F32.c120))).Sound frequencyStore ∧
    (let r1 := Cloth_set_clothSolverFrequency frequencyStore 1 F32.zero
        (World.init (Store.blank (fun _ => F32.c120)))
     let r2 := Cloth_get_solverFrequency frequencyStore 1 r1.world
     let r3 := Cloth_set_solverFrequency frequencyStore 1 true r2.world
     let r4 := Cloth_get_clothSolverFrequency frequencyStore 1 r3.world
     let r5 := Cloth_set_solverFrequency frequencyStore 1 false r4.world
     let r6 := Cloth_get_clothSolverFrequency frequencyStore 1 r5.world
     r1.result = .ok () ∧ r2.result = .ok false ∧ r3.result = .ok () ∧
      r4.result = .ok F32.c120 ∧ r5.result = .ok () ∧ r6.result = .ok F32.zero) :=
  ⟨by decide, World.init_sound _ _,
   scenario_one_solverFrequency 1 (World.init (Store.blank (fun _ => F32.c120)))
     (by decide) (World.init_sound _ _)⟩

/-! ## Resolve once, call many times -/

/-- Calls through a filled cache leave every cache as it is and add one
invocation each to the log. -/
theorem icallSeq_cached {σ : Type} (H : Host σ) (c : CallSite) (p : EntryPoint)
    (calls : List (Handle × Args c.sig.params)) :
    ∀ w : World σ, w.icall_func c = some p →
      (icallSeq H c calls w).icall_func = w.icall_func ∧
      (icallSeq H c calls w).log
        = w.log ++ calls.map (fun x => Event.invoke p x.1 (Args.toVals x.2)) := by
  induction calls with
  | nil =>
    intro w _
    simp [icallSeq]
  | cons call rest ih =>
    intro w hc
    have h1 : icall H c call.1 call.2 w = invoke H c p call.1 call.2 w :=
      icall_cached H c call.1 call.2 w p hc
    have hc1 : (icall H c call.1 call.2 w).world.icall_func c = some p := by
      rw [h1]
      exact hc
    obtain ⟨ihf, ihl⟩ := ih (icall H c call.1 call.2 w).world hc1
    constructor
    · show (icallSeq H c rest (icall H c call.1 call.2 w).world).icall_func = _
      rw [ihf, h1]
      rfl
    · show (icallSeq H c rest (icall H c call.1 call.2 w).world).log = _
      rw [ihl, h1]
      simp [invoke]

theorem countP_isResolve_invokes {α : Type} (f : α → EntryPoint × Handle × List Val)
    (xs : List α) :
    (xs.map (fun x => Event.invoke (f x).1 (f x).2.1 (f x).2.2)).countP Event.isResolve = 0 := by
  induction xs with
  | nil => rfl
  | cons x rest ih => simp [List.countP_cons, Event.isResolve]

/-- C4: from a world in which the cache of call site `c` is still null, in an
environment where the key of `c` resolves to `p`, any `n ≥ 1` successive calls
of the wrapper add to the log exactly one resolver call, made first, followed
by the `n` invocations, every one of them through `p` with the handle and
arguments of its call; the resolver is called once overall and the calls
after the first add an invocation only. -/
theorem resolver_invoked_once {σ : Type} (H : Host σ) (c : CallSite) (p : EntryPoint)
    (first : Handle × Args c.sig.params) (later : List (Handle × Args c.sig.params))
    (w : World σ) (hc : w.icall_func c = none) (hr : H.resolve_icall c.key = some p) :
    (icallSeq H c (first :: later) w).log
      = w.log ++ Event.resolve c.key ::
          (first :: later).map (fun x => Event.invoke p x.1 (Args.toVals x.2)) ∧
    ((icallSeq H c (first :: later) w).log.drop w.log.length).countP Event.isResolve = 1 ∧
    (icall H c first.1 first.2 w).world.log
      = w.log ++ [Event.resolve c.key, Event.invoke p first.1 (Args.toVals first.2)] ∧
    (icallSeq H c (first :: later) w).log
      = (icall H c first.1 first.2 w).world.log
          ++ later.map (fun x => Event.invoke p x.1 (Args.toVals x.2)) := by
  have h1 := icall_fresh H c first.1 first.2 w p hc hr
  have hc1 : (icall H c first.1 first.2 w).world.icall_func c = some p := by
    rw [h1]
    simp [invoke]
  obtain ⟨-, hl⟩ := icallSeq_cached H c p later (icall H c first.1 first.2 w).world hc1
  have hfirst : (icall H c first.1 first.2 w).world.log
      = w.log ++ [Event.resolve c.key, Event.invoke p first.1 (Args.toVals first.2)] := by
    rw [h1]
    simp [invoke]
  have hall : (icallSeq H c (first :: later) w).log
      = w.log ++ Event.resolve c.key ::
          (first :: later).map (fun x => Event.invoke p x.1 (Args.toVals x.2)) := by
    show (icallSeq H c later (icall H c first.1 first.2 w).world).log = _
    rw [hl, hfirst]
    simp
  refine ⟨hall, ?_, hfirst, ?_⟩
  · rw [hall, List.drop_left]
    rw [List.countP_cons]
    have := countP_isResolve_invokes
      (fun x : Handle × Args c.sig.params => (p, x.1, Args.toVals x.2)) (first :: later)
    simp only at this
    rw [this]
    rfl
  · show (icallSeq H c later (icall H c first.1 first.2 w).world).log = _
    exact hl

/-- Witness of C4: three reads of the solver frequency at process start of
the sample engine. -/
theorem resolver_invoked_once_witness :
    (World.init (Store.blank (fun _ => F32.c120)) : World (Handle → F32)).icall_func
        CallSite.get_clothSolverFrequency = none ∧
    frequencyStore.resolve_icall CallSite.get_clothSolverFrequency.key = some 1 ∧
    (icallSeq frequencyStore .get_clothSolverFrequency [(1, ()), (2, ()), (1, ())]
        (World.init (Store.blank (fun _ => F32.c120)))).log.countP Event.isResolve = 1 :=
  ⟨rfl, rfl,
   (resolver_invoked_once frequencyStore .get_clothSolverFrequency 1 (1, ())
      [(2, ()), (1, ())] (World.init (Store.blank (fun _ => F32.c120))) rfl rfl).2.1⟩

/-- C5: where the key of call site `c` resolves, the cache of `c` holds an
entry point after one call of the wrapper and the same one after a second
call (the resolved one if the cache was null before); and a cache that holds
an entry point is left as it is by every later call of that wrapper, as are
the caches of all other sites. -/
theorem resolution_idempotent {σ : Type} (H : Host σ) (c : CallSite) (p : EntryPoint)
    (this1 this2 : Handle) (args1 args2 : Args c.sig.params) (w : World σ)
    (hr : H.resolve_icall c.key = some p) :
    (∃ q, (icall H c this1 args1 w).world.icall_func c = some q ∧
      (icall H c this2 args2 (icall H c this1 args1 w).world).world.icall_func c = some q ∧
      (w.icall_func c = none → q = p)) ∧
    (icall H c this2 args2 (icall H c this1 args1 w).world).world.icall_func
      = (icall H c this1 args1 w).world.icall_func ∧
    (∀ (v : World σ) (q : EntryPoint) (calls : List (Handle × Args c.sig.params)),
      v.icall_func c = some q → (icallSeq H c calls v).icall_func = v.icall_func) := by
  have key : ∀ (v : World σ) (q : EntryPoint) (this : Handle) (args : Args c.sig.params),
      v.icall_func c = some q → (icall H c this args v).world.icall_func = v.icall_func := by
    intro v q this args hv
    rw [icall_cached H c this args v q hv]
    rfl
  have one : ∃ q, (icall H c this1 args1 w).world.icall_func c = some q ∧
      (w.icall_func c = none → q = p) := by
    cases hc : w.icall_func c with
    | some q =>
      refine ⟨q, ?_, fun h => by cases h⟩
      rw [key w q this1 args1 hc]
      exact hc
    | none =>
      refine ⟨p, ?_, fun _ => rfl⟩
      rw [icall_fresh H c this1 args1 w p hc hr]
      simp [invoke]
  obtain ⟨q, hq, hqp⟩ := one
  refine ⟨⟨q, hq, ?_, hqp⟩, key _ q this2 args2 hq, ?_⟩
  · rw [key _ q this2 args2 hq]
    exact hq
  · intro v q' calls hv
    exact (icallSeq_cached H c q' calls v hv).1

/-- Witness of C5: two writes of the sleep threshold at process start of the
sample engine. -/
theorem resolution_idempotent_witness :
    frequencyStore.resolve_icall CallSite.set_sleepThreshold.key = some 3 ∧
    (icall frequencyStore .set_sleepThreshold 1 (F32.half, ())
        (icall frequencyStore .set_sleepThreshold 1 (F32.c120, ())
          (World.init (Store.blank (fun _ => F32.zero)))).world).world.icall_func
      = (icall frequencyStore .set_sleepThreshold 1 (F32.c120, ())
          (World.init (Store.blank (fun _ => F32.zero)))).world.icall_func :=
  ⟨by decide,
   (resolution_idempotent frequencyStore .set_sleepThreshold 3 1 1 (F32.c120, ())
      (F32.half, ()) (World.init (Store.blank (fun _ => F32.zero))) (by decide)).2.1⟩

/-! ## Forwarding -/

theorem Outcome.map_result {σ α β : Type} (f : α → β) (o : Outcome σ α) :
    (o.map f).result = o.result.map f := rfl

theorem Outcome.map_world {σ α β : Type} (f : α → β) (o : Outcome σ α) :
    (o.map f).world = o.world := rfl

/-- C6: a wrapper whose entry point `p` is available (cached, or resolvable
on a null cache) calls `p` once with the handle followed by its own arguments,
unchanged and in order, and hands back exactly what `p` produced: same result
(value or exception), same store.  Spelled out for `Cloth_get_sleepThreshold`,
`Cloth_get_useGravity`, `Cloth_get_vertices` (the returned value is the one
the entry point returned), `Cloth_set_sleepThreshold` and the two-argument
`Cloth_SetEnabledFading` (the arguments reach the entry point in order). -/
theorem wrapper_transparent {σ : Type} (H : Host σ) (c : CallSite) (this : Handle)
    (args : Args c.sig.params) (w : World σ) (p : EntryPoint)
    (he : w.entry H c = some p) :
    ((icall H c this args w).world.log
        = w.log ++ w.resolution c ++ [Event.invoke p this (Args.toVals args)] ∧
      (icall H c this args w).result = (H.native p c.sig this args w.store).result ∧
      (icall H c this args w).world.store = (H.native p c.sig this args w.store).store) ∧
    (∀ q, w.entry H .get_sleepThreshold = some q →
      (Cloth_get_sleepThreshold H this w).result
        = (H.native q CallSite.get_sleepThreshold.sig this () w.store).result.map (·.1) ∧
      (Cloth_get_sleepThreshold H this w).world.log
        = w.log ++ w.resolution .get_sleepThreshold ++ [Event.invoke q this []]) ∧
    (∀ q, w.entry H .get_useGravity = some q →
      (Cloth_get_useGravity H this w).result
        = (H.native q CallSite.get_useGravity.sig this () w.store).result.map (·.1) ∧
      (Cloth_get_useGravity H this w).world.log
        = w.log ++ w.resolution .get_useGravity ++ [Event.invoke q this []]) ∧
    (∀ q, w.entry H .get_vertices = some q →
      (Cloth_get_vertices H this w).result
        = (H.native q CallSite.get_vertices.sig this () w.store).result.map (·.1) ∧
      (Cloth_get_vertices H this w).world.log
        = w.log ++ w.resolution .get_vertices ++ [Event.invoke q this []]) ∧
    (∀ q (value : F32), w.entry H .set_sleepThreshold = some q →
      (Cloth_set_sleepThreshold H this value w).world.log
        = w.log ++ w.resolution .set_sleepThreshold
            ++ [Event.invoke q this [⟨.single, value⟩]]) ∧
    (∀ q (enabled : Bool) (interpolationTime : F32), w.entry H .SetEnabledFading = some q →
      (Cloth_SetEnabledFading_mD98337A5404F8314CB32D91644F6995579D9855F H this enabled
          interpolationTime w).world.log
        = w.log ++ w.resolution .SetEnabledFading
            ++ [Event.invoke q this [⟨.boolean, enabled⟩, ⟨.single, interpolationTime⟩]]) := by
  refine ⟨?_, ?_, ?_, ?_, ?_, ?_⟩
  · rw [icall_entry H c this args w p he]
    exact ⟨rfl, rfl, rfl⟩
  · intro q hq
    unfold Cloth_get_sleepThreshold
    rw [Outcome.map_result, Outcome.map_world, icall_entry H _ this () w q hq]
    exact ⟨rfl, rfl⟩
  · intro q hq
    unfold Cloth_get_useGravity
    rw [Outcome.map_result, Outcome.map_world, icall_entry H _ this () w q hq]
    exact ⟨rfl, rfl⟩
  · intro q hq
    unfold Cloth_get_vertices
    rw [Outcome.map_result, Outcome.map_world, icall_entry H _ this () w q hq]
    exact ⟨rfl, rfl⟩
  · intro q value hq
    unfold Cloth_set_sleepThreshold
    rw [Outcome.map_world, icall_entry H _ this (value, ()) w q hq]
    rfl
  · intro q enabled interpolationTime hq
    unfold Cloth_SetEnabledFading_mD98337A5404F8314CB32D91644F6995579D9855F
    rw [Outcome.map_world, icall_entry H _ this (enabled, interpolationTime, ()) w q hq]
    rfl

/-- Witness of C6: `SetEnabledFading(true, 0.5f)` on handle 7 at process
start of the sample engine. -/
theorem wrapper_transparent_witness :
    (World.init (Store.blank (fun _ => F32.zero))).entry frequencyStore .SetEnabledFading
      = some 3 ∧
    (icall frequencyStore .SetEnabledFading 7 (true, F32.half, ())
        (World.init (Store.blank (fun _ => F32.zero)))).world.log
      = [Event.resolve "UnityEngine.Cloth::SetEnabledFading(System.Boolean,System.Single)",
         Event.invoke 3 7 [⟨.boolean, true⟩, ⟨.single, F32.half⟩]] :=
  ⟨by decide,
   (wrapper_transparent frequencyStore .SetEnabledFading 7 (true, F32.half, ())
      (World.init (Store.blank (fun _ => F32.zero))) 3 (by decide)).1.1⟩

/-! ## Struct returns through a zeroed slot -/

theorem get_externalAcceleration_eq {σ : Type} (H : Host σ) (this : Handle) (w : World σ)
    (p : EntryPoint) (he : w.entry H .get_externalAcceleration_Injected = some p) :
    Cloth_get_externalAcceleration H this w =
      ⟨(H.native p CallSite.get_externalAcceleration_Injected.sig this (Vector3.zero, ())
          w.store).result.map (fun r => r.2.1),
       { icall_func := Function.update w.icall_func .get_externalAcceleration_Injected (some p),
         store := (H.native p CallSite.get_externalAcceleration_Injected.sig this
            (Vector3.zero, ()) w.store).store,
         log := w.log ++ w.resolution .get_externalAcceleration_Injected
            ++ [Event.invoke p this [⟨.vector3Ref, Vector3.zero⟩]] }⟩ := by
  show Outcome.map _ (icall H .get_externalAcceleration_Injected this (Vector3.zero, ()) w) = _
  rw [icall_entry H _ this (Vector3.zero, ()) w p he]
  rfl

theorem get_randomAcceleration_eq {σ : Type} (H : Host σ) (this : Handle) (w : World σ)
    (p : EntryPoint) (he : w.entry H .get_randomAcceleration_Injected = some p) :
    Cloth_get_randomAcceleration H this w =
      ⟨(H.native p CallSite.get_randomAcceleration_Injected.sig this (Vector3.zero, ())
          w.store).result.map (fun r => r.2.1),
       { icall_func := Function.update w.icall_func .get_randomAcceleration_Injected (some p),
         store := (H.native p CallSite.get_randomAcceleration_Injected.sig this
            (Vector3.zero, ()) w.store).store,
         log := w.log ++ w.resolution .get_randomAcceleration_Injected
            ++ [Event.invoke p this [⟨.vector3Ref, Vector3.zero⟩]] }⟩ := by
  show Outcome.map _ (icall H .get_randomAcceleration_Injected this (Vector3.zero, ()) w) = _
  rw [icall_entry H _ this (Vector3.zero, ()) w p he]
  rfl

theorem Raycast_eq {σ : Type} (H : Host σ) (this : Handle) (ray : Ray) (maxDistance : F32)
    (hasHit : Bool) (w : World σ)
    (p : EntryPoint) (he : w.entry H .Raycast_Injected = some p) :
    Cloth_Raycast H this ray maxDistance hasHit w =
      ⟨(H.native p CallSite.Raycast_Injected.sig this
          (ray, maxDistance, hasHit, RaycastHit.zero, ()) w.store).result.map
            (fun r => (r.2.2.2.2.1, r.2.2.2.1)),
       { icall_func := Function.update w.icall_func .Raycast_Injected (some p),
         store := (H.native p CallSite.Raycast_Injected.sig this
            (ray, maxDistance, hasHit, RaycastHit.zero, ()) w.store).store,
         log := w.log ++ w.resolution .Raycast_Injected
            ++ [Event.invoke p this [⟨.rayRef, ray⟩, ⟨.single, maxDistance⟩,
                  ⟨.booleanRef, hasHit⟩, ⟨.raycastHitRef, RaycastHit.zero⟩]] }⟩ := by
  show Outcome.map _ (Outcome.map _ (icall H .Raycast_Injected this
    (ray, maxDistance, hasHit, RaycastHit.zero, ()) w)) = _
  rw [icall_entry H _ this (ray, maxDistance, hasHit, RaycastHit.zero, ()) w p he]
  simp only [Outcome.map]
  congr 1
  cases (H.native p CallSite.Raycast_Injected.sig this
    (ray, maxDistance, hasHit, RaycastHit.zero, ()) w.store).result <;> rfl

/-- C7: when the entry points of the three struct-returning wrappers are
available and the external operation returns having written no field of the
output slot it was handed, `Cloth_get_externalAcceleration` and
`Cloth_get_randomAcceleration` return the all-zero `Vector3` and
`Cloth_Raycast` returns the all-zero `RaycastHit`; in these every field is
zero. -/
theorem struct_return_zero_when_unwritten {σ : Type} (H : Host σ) (this : Handle) (ray : Ray)
    (maxDistance : F32) (hasHit : Bool) (w : World σ) (p1 p2 p3 : EntryPoint)
    (he1 : w.entry H .get_externalAcceleration_Injected = some p1)
    (he2 : w.entry H .get_randomAcceleration_Injected = some p2)
    (he3 : w.entry H .Raycast_Injected = some p3)
    (hn1 : ∃ r, (H.native p1 CallSite.get_externalAcceleration_Injected.sig this
        (Vector3.zero, ()) w.store).result = .ok r ∧ r.2.1 = Vector3.zero)
    (hn2 : ∃ r, (H.native p2 CallSite.get_randomAcceleration_Injected.sig this
        (Vector3.zero, ()) w.store).result = .ok r ∧ r.2.1 = Vector3.zero)
    (hn3 : ∃ r, (H.native p3 CallSite.Raycast_Injected.sig this
        (ray, maxDistance, hasHit, RaycastHit.zero, ()) w.store).result = .ok r ∧
        r.2.2.2.2.1 = RaycastHit.zero) :
    (Cloth_get_externalAcceleration H this w).result = .ok Vector3.zero ∧
    (Cloth_get_randomAcceleration H this w).result = .ok Vector3.zero ∧
    (∃ hasHit', (Cloth_Raycast H this ray maxDistance hasHit w).result
        = .ok (RaycastHit.zero, hasHit')) ∧
    (Vector3.zero.x.bits = 0 ∧ Vector3.zero.y.bits = 0 ∧ Vector3.zero.z.bits = 0) ∧
    (RaycastHit.zero.m_Point = Vector3.zero ∧ RaycastHit.zero.m_Normal = Vector3.zero ∧
      RaycastHit.zero.m_FaceID = 0 ∧ RaycastHit.zero.m_Distance.bits = 0 ∧
      RaycastHit.zero.m_UV.x.bits = 0 ∧ RaycastHit.zero.m_UV.y.bits = 0 ∧
      RaycastHit.zero.m_Collider = 0) := by
  obtain ⟨r1, h1, z1⟩ := hn1
  obtain ⟨r2, h2, z2⟩ := hn2
  obtain ⟨r3, h3, z3⟩ := hn3
  refine ⟨?_, ?_, ⟨r3.2.2.2.1, ?_⟩, ⟨rfl, rfl, rfl⟩, ⟨rfl, rfl, rfl, rfl, rfl, rfl, rfl⟩⟩
  · rw [get_externalAcceleration_eq H this w p1 he1]
    simp only [h1, Except.map, z1]
  · rw [get_randomAcceleration_eq H this w p2 he2]
    simp only [h2, Except.map, z2]
  · rw [Raycast_eq H this ray maxDistance hasHit w p3 he3]
    simp only [h3, Except.map, z3]

/-- Witness of C7: the sample engine, whose entry point 3 writes nothing. -/
theorem struct_return_zero_when_unwritten_witness :
    (World.init (Store.blank (fun _ => F32.zero))).entry frequencyStore
        .get_externalAcceleration_Injected = some 3 ∧
    (Cloth_get_externalAcceleration frequencyStore 5
        (World.init (Store.blank (fun _ => F32.zero)))).result = .ok Vector3.zero ∧
    (Cloth_get_randomAcceleration frequencyStore 5
        (World.init (Store.blank (fun _ => F32.zero)))).result = .ok Vector3.zero ∧
    (∃ hasHit', (Cloth_Raycast frequencyStore 5 ⟨Vector3.zero, Vector3.zero⟩ F32.c120 true
        (World.init (Store.blank (fun _ => F32.zero)))).result
          = .ok (RaycastHit.zero, hasHit')) :=
  have h := struct_return_zero_when_unwritten frequencyStore 5 ⟨Vector3.zero, Vector3.zero⟩
    F32.c120 true (World.init (Store.blank (fun _ => F32.zero))) 3 3 3
    (by decide) (by decide) (by decide) ⟨_, rfl, rfl⟩ ⟨_, rfl, rfl⟩ ⟨_, rfl, rfl⟩
  ⟨by decide, h.1, h.2.1, h.2.2.1⟩

/-- C8: when their entry points are available, `Cloth_get_externalAcceleration`
and `Cloth_get_randomAcceleration` hand the external operation a slot that is
all zero and return the content of that slot after the call: the value is what
the operation makes of the zero struct, so an operation that turns a slot `s`
into `g s` yields `g` of the zero struct. -/
theorem struct_getter_returns_slot {σ : Type} (H : Host σ) (this : Handle) (w : World σ)
    (p1 p2 : EntryPoint)
    (he1 : w.entry H .get_externalAcceleration_Injected = some p1)
    (he2 : w.entry H .get_randomAcceleration_Injected = some p2) :
    ((Cloth_get_externalAcceleration H this w).result
        = (H.native p1 CallSite.get_externalAcceleration_Injected.sig this (Vector3.zero, ())
            w.store).result.map (fun r => r.2.1) ∧
      (Cloth_get_externalAcceleration H this w).world.log
        = w.log ++ w.resolution .get_externalAcceleration_Injected
            ++ [Event.invoke p1 this [⟨.vector3Ref, Vector3.zero⟩]] ∧
      (∀ g : Vector3 → Vector3,
        (∀ slot st, (H.native p1 CallSite.get_externalAcceleration_Injected.sig this
            (slot, ()) st).result = .ok ((), (g slot, ()))) →
        (Cloth_get_externalAcceleration H this w).result = .ok (g Vector3.zero))) ∧
    ((Cloth_get_randomAcceleration H this w).result
        = (H.native p2 CallSite.get_randomAcceleration_Injected.sig this (Vector3.zero, ())
            w.store).result.map (fun r => r.2.1) ∧
      (Cloth_get_randomAcceleration H this w).world.log
        = w.log ++ w.resolution .get_randomAcceleration_Injected
            ++ [Event.invoke p2 this [⟨.vector3Ref, Vector3.zero⟩]] ∧
      (∀ g : Vector3 → Vector3,
        (∀ slot st, (H.native p2 CallSite.get_randomAcceleration_Injected.sig this
            (slot, ()) st).result = .ok ((), (g slot, ()))) →
        (Cloth_get_randomAcceleration H this w).result = .ok (g Vector3.zero))) := by
  refine ⟨⟨?_, ?_, ?_⟩, ⟨?_, ?_, ?_⟩⟩
  · rw [get_externalAcceleration_eq H this w p1 he1]
  · rw [get_externalAcceleration_eq H this w p1 he1]
  · intro g hg
    rw [get_externalAcceleration_eq H this w p1 he1]
    simp only [hg, Except.map]
  · rw [get_randomAcceleration_eq H this w p2 he2]
  · rw [get_randomAcceleration_eq H this w p2 he2]
  · intro g hg
    rw [get_randomAcceleration_eq H this w p2 he2]
    simp only [hg, Except.map]

/-- Witness of C8: handle 5 at process start of the sample engine. -/
theorem struct_getter_returns_slot_witness :
    (World.init (Store.blank (fun _ => F32.zero))).entry frequencyStore
        .get_externalAcceleration_Injected = some 3 ∧
    (World.init (Store.blank (fun _ => F32.zero))).entry frequencyStore
        .get_randomAcceleration_Injected = some 3 ∧
    (Cloth_get_externalAcceleration frequencyStore 5
        (World.init (Store.blank (fun _ => F32.zero)))).world.log
      = [Event.resolve "UnityEngine.Cloth::get_externalAcceleration_Injected(UnityEngine.Vector3&)",
         Event.invoke 3 5 [⟨.vector3Ref, Vector3.zero⟩]] :=
  ⟨by decide, by decide,
   (struct_getter_returns_slot frequencyStore 5 (World.init (Store.blank (fun _ => F32.zero)))
      3 3 (by decide) (by decide)).1.2.1⟩

/-! ## Failed resolution -/

/-- C9: in a world with sound caches, a wrapper whose key is unknown to the
host ends with the resolver's failure for that key: no value is returned, the
log grows by the one resolver call and no invocation, and store and caches are
as before.  The failure also comes out of the wrappers built on top:
`Cloth_ClearTransformMotion`, `Cloth_get_externalAcceleration`,
`Cloth_get_solverFrequency`. -/
theorem resolution_failure_surfaces {σ : Type} (H : Host σ) (c : CallSite) (this : Handle)
    (args : Args c.sig.params) (w : World σ)
    (hs : w.Sound H) (hr : H.resolve_icall c.key = none) :
    ((icall H c this args w).result = .error (.missingMethod c.key) ∧
      (icall H c this args w).world.log = w.log ++ [Event.resolve c.key] ∧
      (icall H c this args w).world.store = w.store ∧
      (icall H c this args w).world.icall_func = w.icall_func) ∧
    (c = .ClearTransformMotion →
      (Cloth_ClearTransformMotion H this w).result
        = .error (.missingMethod "UnityEngine.Cloth::ClearTransformMotion()") ∧
      (Cloth_ClearTransformMotion H this w).world.log
        = w.log ++ [Event.resolve "UnityEngine.Cloth::ClearTransformMotion()"]) ∧
    (c = .get_externalAcceleration_Injected →
      (Cloth_get_externalAcceleration H this w).result
        = .error (.missingMethod
            "UnityEngine.Cloth::get_externalAcceleration_Injected(UnityEngine.Vector3&)") ∧
      (Cloth_get_externalAcceleration H this w).world.log
        = w.log ++ [Event.resolve
            "UnityEngine.Cloth::get_externalAcceleration_Injected(UnityEngine.Vector3&)"]) ∧
    (c = .get_clothSolverFrequency →
      (Cloth_get_solverFrequency H this w).result
        = .error (.missingMethod "UnityEngine.Cloth::get_clothSolverFrequency()") ∧
      (Cloth_get_solverFrequency H this w).world.log
        = w.log ++ [Event.resolve "UnityEngine.Cloth::get_clothSolverFrequency()"]) := by
  have hc : w.icall_func c = none := by
    cases hq : w.icall_func c with
    | none => rfl
    | some q =>
      rw [hs c q hq] at hr
      cases hr
  refine ⟨?_, ?_, ?_, ?_⟩
  · rw [icall_missing H c this args w hc hr]
    exact ⟨rfl, rfl, rfl, rfl⟩
  · intro h
    subst h
    show (Outcome.map _ (icall H .ClearTransformMotion this () w)).result = _ ∧
      (Outcome.map _ (icall H .ClearTransformMotion this () w)).world.log = _
    rw [icall_missing H _ this () w hc hr]
    exact ⟨rfl, rfl⟩
  · intro h
    subst h
    show (Outcome.map _ (icall H .get_externalAcceleration_Injected this
        (Vector3.zero, ()) w)).result = _ ∧
      (Outcome.map _ (icall H .get_externalAcceleration_Injected this
        (Vector3.zero, ()) w)).world.log = _
    rw [icall_missing H _ this (Vector3.zero, ()) w hc hr]
    exact ⟨rfl, rfl⟩
  · intro h
    subst h
    show (Outcome.map _ (Outcome.map _ (icall H .get_clothSolverFrequency this () w))).result = _ ∧
      (Outcome.map _ (Outcome.map _ (icall H .get_clothSolverFrequency this () w))).world.log = _
    rw [icall_missing H _ this () w hc hr]
    exact ⟨rfl, rfl⟩

/-- Witness of C9: `Cloth_ClearTransformMotion` on a host that provides no
operation. -/
theorem resolution_failure_surfaces_witness :
    (World.init (Store.blank ())).Sound emptyHost ∧
    emptyHost.resolve_icall CallSite.ClearTransformMotion.key = none ∧
    (Cloth_ClearTransformMotion emptyHost 1 (World.init (Store.blank ()))).result
        = .error (.missingMethod "UnityEngine.Cloth::ClearTransformMotion()") ∧
    (Cloth_ClearTransformMotion emptyHost 1 (World.init (Store.blank ()))).world.log
        = [Event.resolve "UnityEngine.Cloth::ClearTransformMotion()"] :=
  ⟨World.init_sound _ _, rfl,
   (resolution_failure_surfaces emptyHost .ClearTransformMotion 1 ()
      (World.init (Store.blank ())) (World.init_sound _ _) rfl).2.1 rfl⟩

/-! ## Null handles -/

/-- C10, as stated, fails: on a null handle `Cloth_set_solverFrequency` raises
`NullReferenceException` itself; nothing is resolved or invoked, although the
host would resolve the setter's key. -/
theorem set_solverFrequency_null_raises :
    (Cloth_set_solverFrequency frequencyStore null true
        (World.init (Store.blank (fun _ => F32.zero)))).result = .error .nullReference ∧
    (Cloth_set_solverFrequency frequencyStore null true
        (World.init (Store.blank (fun _ => F32.zero)))).world.log = [] ∧
    frequencyStore.resolve_icall CallSite.set_clothSolverFrequency.key = some 2 :=
  ⟨rfl, rfl, rfl⟩

/-- C10, amended: a wrapper whose entry point is available passes a null
handle on to the external operation unchanged and ends as that operation ends,
raising nothing of its own; so do `Cloth_get_solverFrequency`, the
struct-return wrappers and the one-argument `Cloth_SetEnabledFading`.
`Cloth_set_solverFrequency` null-checks its handle: on a null handle it raises
`NullReferenceException` and leaves the world as it was, on any other handle it
passes the handle on unchanged. -/
theorem null_handle_forwarded {σ : Type} (H : Host σ) (c : CallSite)
    (args : Args c.sig.params) (w : World σ) (p : EntryPoint)
    (he : w.entry H c = some p) :
    ((icall H c null args w).world.log
        = w.log ++ w.resolution c ++ [Event.invoke p null (Args.toVals args)] ∧
      (icall H c null args w).result = (H.native p c.sig null args w.store).result) ∧
    (c = .get_clothSolverFrequency →
      (Cloth_get_solverFrequency H null w).world.log
        = w.log ++ w.resolution .get_clothSolverFrequency ++ [Event.invoke p null []] ∧
      (Cloth_get_solverFrequency H null w).result
        = (H.native p CallSite.get_clothSolverFrequency.sig null () w.store).result.map
            (fun r => F32.gt r.1 F32.zero)) ∧
    (c = .get_externalAcceleration_Injected →
      (Cloth_get_externalAcceleration H null w).world.log
        = w.log ++ w.resolution .get_externalAcceleration_Injected
            ++ [Event.invoke p null [⟨.vector3Ref, Vector3.zero⟩]]) ∧
    (c = .get_randomAcceleration_Injected →
      (Cloth_get_randomAcceleration H null w).world.log
        = w.log ++ w.resolution .get_randomAcceleration_Injected
            ++ [Event.invoke p null [⟨.vector3Ref, Vector3.zero⟩]]) ∧
    (c = .set_externalAcceleration_Injected → ∀ value : Vector3,
      (Cloth_set_externalAcceleration H null value w).world.log
        = w.log ++ w.resolution .set_externalAcceleration_Injected
            ++ [Event.invoke p null [⟨.vector3Ref, value⟩]]) ∧
    (c = .set_randomAcceleration_Injected → ∀ value : Vector3,
      (Cloth_set_randomAcceleration H null value w).world.log
        = w.log ++ w.resolution .set_randomAcceleration_Injected
            ++ [Event.invoke p null [⟨.vector3Ref, value⟩]]) ∧
    (c = .Raycast_Injected → ∀ (ray : Ray) (maxDistance : F32) (hasHit : Bool),
      (Cloth_Raycast H null ray maxDistance hasHit w).world.log
        = w.log ++ w.resolution .Raycast_Injected
            ++ [Event.invoke p null [⟨.rayRef, ray⟩, ⟨.single, maxDistance⟩,
                  ⟨.booleanRef, hasHit⟩, ⟨.raycastHitRef, RaycastHit.zero⟩]]) ∧
    (c = .SetEnabledFading → ∀ enabled : Bool,
      (Cloth_SetEnabledFading_mFC216321A4512E3BD8A3EA2557F723E92FBDE12B H null enabled
          w).world.log
        = w.log ++ w.resolution .SetEnabledFading
            ++ [Event.invoke p null [⟨.boolean, enabled⟩, ⟨.single, F32.half⟩]]) ∧
    (∀ b : Bool, Cloth_set_solverFrequency H null b w = ⟨.error .nullReference, w⟩) ∧
    (c = .set_clothSolverFrequency → ∀ (this : Handle) (b : Bool), this ≠ null →
      (Cloth_set_solverFrequency H this b w).world.log
        = w.log ++ w.resolution .set_clothSolverFrequency
            ++ [Event.invoke p this [⟨.single, if b then F32.c120 else F32.zero⟩]]) := by
  refine ⟨?_, ?_, ?_, ?_, ?_, ?_, ?_, ?_, ?_, ?_⟩
  · rw [icall_entry H c null args w p he]
    exact ⟨rfl, rfl⟩
  · intro h
    subst h
    show (Outcome.map _ (Outcome.map _ (icall H .get_clothSolverFrequency null () w))).world.log
        = _ ∧
      (Outcome.map _ (Outcome.map _ (icall H .get_clothSolverFrequency null () w))).result = _
    rw [icall_entry H _ null () w p he]
    refine ⟨rfl, ?_⟩
    simp only [Outcome.map]
    cases (H.native p CallSite.get_clothSolverFrequency.sig null () w.store).result <;> rfl
  · intro h
    subst h
    rw [get_externalAcceleration_eq H null w p he]
  · intro h
    subst h
    rw [get_randomAcceleration_eq H null w p he]
  · intro h value
    subst h
    show (Outcome.map _ (icall H .set_externalAcceleration_Injected null (value, ()) w)).world.log
      = _
    rw [icall_entry H _ null (value, ()) w p he]
    rfl
  · intro h value
    subst h
    show (Outcome.map _ (icall H .set_randomAcceleration_Injected null (value, ()) w)).world.log
      = _
    rw [icall_entry H _ null (value, ()) w p he]
    rfl
  · intro h ray maxDistance hasHit
    subst h
    rw [Raycast_eq H null ray maxDistance hasHit w p he]
  · intro h enabled
    subst h
    show (Outcome.map _ (icall H .SetEnabledFading null (enabled, F32.half, ()) w)).world.log = _
    rw [icall_entry H _ null (enabled, F32.half, ()) w p he]
    rfl
  · intro b
    cases b <;> rfl
  · intro h this b hn
    subst h
    rw [set_solverFrequency_eq H this b w hn]
    show (Outcome.map _ (icall H .set_clothSolverFrequency this
      ((if b then F32.c120 else F32.zero), ()) w)).world.log = _
    rw [icall_entry H _ this ((if b then F32.c120 else F32.zero), ()) w p he]
    rfl

/-- Witness of C10, amended: reading the solver frequency of the null handle
at process start of the sample engine reaches the engine with handle 0. -/
theorem null_handle_forwarded_witness :
    (World.init (Store.blank (fun _ => F32.c120))).entry frequencyStore
        .get_clothSolverFrequency = some 1 ∧
    (Cloth_get_solverFrequency frequencyStore null
        (World.init (Store.blank (fun _ => F32.c120)))).world.log
      = [Event.resolve "UnityEngine.Cloth::get_clothSolverFrequency()", Event.invoke 1 0 []] ∧
    (Cloth_get_solverFrequency frequencyStore null
        (World.init (Store.blank (fun _ => F32.c120)))).result = .ok true :=
  have h := (null_handle_forwarded frequencyStore .get_clothSolverFrequency ()
    (World.init (Store.blank (fun _ => F32.c120))) 1 (by decide)).2.1 rfl
  ⟨by decide, h.1, h.2⟩

/-! ## What the derived and the field-backed properties touch -/

theorem World.since_append {σ : Type} (w w0 : World σ) (es : List Event)
    (h : w.log = w0.log ++ es) : w.since w0 = es := by
  unfold World.since
  rw [h, List.drop_left]

theorem World.resolution_count {σ : Type} (w : World σ) (c : CallSite) :
    (w.resolution c).countP Event.isInvoke = 0 ∧
    (w.resolution c).countP Event.isResolve = if w.icall_func c = none then 1 else 0 := by
  unfold World.resolution
  cases w.icall_func c <;> simp [Event.isInvoke, Event.isResolve]

/-- The events of a call whose entry point is available. -/
theorem icall_since {σ : Type} (H : Host σ) (c : CallSite) (this : Handle)
    (args : Args c.sig.params) (w : World σ) (p : EntryPoint)
    (he : w.entry H c = some p) :
    (icall H c this args w).world.since w
      = w.resolution c ++ [Event.invoke p this (Args.toVals args)] := by
  apply World.since_append
  rw [icall_entry H c this args w p he, List.append_assoc]

theorem icall_invocations {σ : Type} (H : Host σ) (c : CallSite) (this : Handle)
    (args : Args c.sig.params) (w : World σ) (p : EntryPoint)
    (he : w.entry H c = some p) :
    (icall H c this args w).world.invocationsSince w = 1 := by
  unfold World.invocationsSince
  rw [icall_since H c this args w p he, List.countP_append, (w.resolution_count c).1]
  rfl

/-- C11, as stated, fails: at process start of the sample engine
`Cloth_get_solverFrequency` calls the resolver and then the engine's entry
point, and `Cloth_set_solverFrequency` does the same and changes the engine's
state. -/
theorem solverFrequency_not_local :
    (Cloth_get_solverFrequency frequencyStore 1
        (World.init (Store.blank (fun _ => F32.zero)))).world.log
      = [Event.resolve "UnityEngine.Cloth::get_clothSolverFrequency()", Event.invoke 1 1 []] ∧
    (Cloth_set_solverFrequency frequencyStore 1 true
        (World.init (Store.blank (fun _ => F32.zero)))).world.log
      = [Event.resolve "UnityEngine.Cloth::set_clothSolverFrequency(System.Single)",
         Event.invoke 2 1 [⟨.single, F32.c120⟩]] ∧
    (Cloth_set_solverFrequency frequencyStore 1 true
        (World.init (Store.blank (fun _ => F32.zero)))).world.store.engine 1 = F32.c120 ∧
    (World.init (Store.blank (fun _ => F32.zero)) : World (Handle → F32)).store.engine 1
      = F32.zero :=
  ⟨rfl, rfl, rfl, rfl⟩

/-- C11, amended: the derived property is a local computation on top of one
forwarded call.  `Cloth_get_solverFrequency` leaves the world of the one
`Cloth_get_clothSolverFrequency` call it makes and computes its boolean from the
returned float; `Cloth_set_solverFrequency` on a non-null handle is the one
`Cloth_set_clothSolverFrequency` call with the constant it picked, and on a
null handle leaves the world as it was.  With the entry point available each
of them calls the resolver only if the cache is null and invokes the external
entry point exactly once, and the store afterwards is the one that operation
left: the layer itself writes no state of the host object. -/
theorem solverFrequency_local_over_one_call {σ : Type} (H : Host σ) (this : Handle)
    (b : Bool) (w : World σ) (hn : this ≠ null) :
    ((Cloth_get_solverFrequency H this w).world
        = (Cloth_get_clothSolverFrequency H this w).world ∧
      (Cloth_get_solverFrequency H this w).result
        = (Cloth_get_clothSolverFrequency H this w).result.map
            (fun f => F32.gt f F32.zero)) ∧
    (Cloth_set_solverFrequency H this b w
        = Cloth_set_clothSolverFrequency H this (if b then F32.c120 else F32.zero) w ∧
      (Cloth_set_solverFrequency H null b w).world = w) ∧
    (∀ p, w.entry H .get_clothSolverFrequency = some p →
      (Cloth_get_solverFrequency H this w).world.since w
        = w.resolution .get_clothSolverFrequency ++ [Event.invoke p this []] ∧
      (Cloth_get_solverFrequency H this w).world.invocationsSince w = 1 ∧
      (Cloth_get_solverFrequency H this w).world.store
        = (H.native p CallSite.get_clothSolverFrequency.sig this () w.store).store) ∧
    (∀ p, w.entry H .set_clothSolverFrequency = some p →
      (Cloth_set_solverFrequency H this b w).world.since w
        = w.resolution .set_clothSolverFrequency
            ++ [Event.invoke p this [⟨.single, if b then F32.c120 else F32.zero⟩]] ∧
      (Cloth_set_solverFrequency H this b w).world.invocationsSince w = 1 ∧
      (Cloth_set_solverFrequency H this b w).world.store
        = (H.native p CallSite.set_clothSolverFrequency.sig this
            ((if b then F32.c120 else F32.zero), ()) w.store).store) := by
  refine ⟨⟨rfl, rfl⟩, ⟨set_solverFrequency_eq H this b w hn, ?_⟩, ?_, ?_⟩
  · cases b <;> rfl
  · intro p he
    have hw : (Cloth_get_solverFrequency H this w).world
        = (icall H .get_clothSolverFrequency this () w).world := rfl
    rw [hw]
    refine ⟨icall_since H _ this () w p he, icall_invocations H _ this () w p he, ?_⟩
    rw [icall_entry H _ this () w p he]
  · intro p he
    rw [set_solverFrequency_eq H this b w hn]
    have hw : (Cloth_set_clothSolverFrequency H this (if b then F32.c120 else F32.zero) w).world
        = (icall H .set_clothSolverFrequency this
            ((if b then F32.c120 else F32.zero), ()) w).world := rfl
    rw [hw]
    refine ⟨icall_since H _ this _ w p he, icall_invocations H _ this _ w p he, ?_⟩
    rw [icall_entry H _ this _ w p he]

/-- Witness of C11, amended: handle 1, value true, at process start of the
sample engine. -/
theorem solverFrequency_local_over_one_call_witness :
    (1 : Handle) ≠ null ∧
    (Cloth_get_solverFrequency frequencyStore 1
        (World.init (Store.blank (fun _ => F32.zero)))).world.invocationsSince
          (World.init (Store.blank (fun _ => F32.zero))) = 1 ∧
    (Cloth_set_solverFrequency frequencyStore 1 true
        (World.init (Store.blank (fun _ => F32.zero)))).world.invocationsSince
          (World.init (Store.blank (fun _ => F32.zero))) = 1 :=
  have h := solverFrequency_local_over_one_call frequencyStore 1 true
    (World.init (Store.blank (fun _ => F32.zero))) (by decide)
  ⟨by decide, (h.2.2.1 1 (by decide)).2.1, (h.2.2.2 2 (by decide)).2.1⟩

/-- C12: for the handle of a live object and every float `v`, after
`Cloth_set_useContinuousCollision(obj, v)` the call
`Cloth_get_useContinuousCollision(obj)` returns `v`; both calls return
normally, add nothing to the log (no resolver call, no invocation) and leave
every call-site cache and the engine's state as they were. -/
theorem useContinuousCollision_round_trip {σ : Type} (this : Handle) (v : F32)
    (w : World σ) (_hobj : this ≠ null) :
    (Cloth_set_useContinuousCollision this v w).result = .ok () ∧
    (Cloth_get_useContinuousCollision this
        (Cloth_set_useContinuousCollision this v w).world).result = .ok v ∧
    (Cloth_set_useContinuousCollision this v w).world.log = w.log ∧
    (Cloth_set_useContinuousCollision this v w).world.icall_func = w.icall_func ∧
    (Cloth_set_useContinuousCollision this v w).world.store.engine = w.store.engine ∧
    (Cloth_get_useContinuousCollision this w).world = w ∧
    (Cloth_set_useContinuousCollision this v w).world.invocationsSince w = 0 ∧
    (Cloth_set_useContinuousCollision this v w).world.resolutionsSince w = 0 ∧
    (Cloth_get_useContinuousCollision this w).world.invocationsSince w = 0 ∧
    (Cloth_get_useContinuousCollision this w).world.resolutionsSince w = 0 := by
  have hs : ∀ u : World σ, u.since u = [] := fun u => by
    unfold World.since
    exact List.drop_length u.log
  have hset : (Cloth_set_useContinuousCollision this v w).world.since w = [] := hs w
  refine ⟨rfl, ?_, rfl, rfl, rfl, rfl, ?_, ?_, ?_, ?_⟩
  · show Except.ok ((Function.update w.store.heap this
        ⟨(w.store.heap this).m_CachedPtr, v, (w.store.heap this).selfCollision⟩
          this).useContinuousCollision) = Except.ok v
    rw [Function.update_same]
  · unfold World.invocationsSince
    rw [hset]
    rfl
  · unfold World.resolutionsSince
    rw [hset]
    rfl
  · unfold World.invocationsSince
    rw [show (Cloth_get_useContinuousCollision this w).world = w from rfl, hs w]
    rfl
  · unfold World.resolutionsSince
    rw [show (Cloth_get_useContinuousCollision this w).world = w from rfl, hs w]
    rfl

/-- Witness of C12: object 4, value 0.5, at process start of the sample
engine. -/
theorem useContinuousCollision_round_trip_witness :
    (4 : Handle) ≠ null ∧
    (Cloth_get_useContinuousCollision 4
        (Cloth_set_useContinuousCollision 4 F32.half
          (World.init (Store.blank (fun _ : Handle => F32.zero)))).world).result
      = .ok F32.half :=
  ⟨by decide,
   (useContinuousCollision_round_trip 4 F32.half
      (World.init (Store.blank (fun _ : Handle => F32.zero))) (by decide)).2.1⟩

/-! ## Scenario 2 and the frame of a wrapper call -/

/-- C13: where the entry point of `get_externalAcceleration_Injected` is
available and the external operation, run on the current store with the
zeroed slot, leaves the store as it found it, two successive calls of
`Cloth_get_externalAcceleration` on the same handle end the same way, and with
the same vector when the operation returns one; from a null cache the first
call calls the resolver and the second does not. -/
theorem scenario_two_same_value {σ : Type} (H : Host σ) (this : Handle) (w : World σ)
    (p : EntryPoint) (he : w.entry H .get_externalAcceleration_Injected = some p)
    (hpure : (H.native p CallSite.get_externalAcceleration_Injected.sig this
        (Vector3.zero, ()) w.store).store = w.store) :
    (Cloth_get_externalAcceleration H this (Cloth_get_externalAcceleration H this w).world).result
      = (Cloth_get_externalAcceleration H this w).result ∧
    (∀ r, (H.native p CallSite.get_externalAcceleration_Injected.sig this
        (Vector3.zero, ()) w.store).result = .ok r →
      (Cloth_get_externalAcceleration H this w).result = .ok r.2.1 ∧
      (Cloth_get_externalAcceleration H this
        (Cloth_get_externalAcceleration H this w).world).result = .ok r.2.1) ∧
    (w.icall_func .get_externalAcceleration_Injected = none →
      (Cloth_get_externalAcceleration H this w).world.resolutionsSince w = 1 ∧
      (Cloth_get_externalAcceleration H this
        (Cloth_get_externalAcceleration H this w).world).world.resolutionsSince
          (Cloth_get_externalAcceleration H this w).world = 0) := by
  have h1 := get_externalAcceleration_eq H this w p he
  have hc1 : (Cloth_get_externalAcceleration H this w).world.icall_func
      .get_externalAcceleration_Injected = some p := by
    rw [h1]
    exact Function.update_same CallSite.get_externalAcceleration_Injected (some p) w.icall_func
  have he1 : (Cloth_get_externalAcceleration H this w).world.entry H
      .get_externalAcceleration_Injected = some p := by
    unfold World.entry
    rw [hc1]
  have hs1 : (Cloth_get_externalAcceleration H this w).world.store = w.store := by
    rw [h1]
    exact hpure
  have h2 := get_externalAcceleration_eq H this (Cloth_get_externalAcceleration H this w).world
    p he1
  have hres : (Cloth_get_externalAcceleration H this
      (Cloth_get_externalAcceleration H this w).world).result
      = (Cloth_get_externalAcceleration H this w).result := by
    rw [h2, hs1, h1]
  refine ⟨hres, ?_, ?_⟩
  · intro r hr
    have : (Cloth_get_externalAcceleration H this w).result = .ok r.2.1 := by
      rw [h1]
      simp only [hr, Except.map]
    exact ⟨this, hres.trans this⟩
  · intro hc
    constructor
    · unfold World.resolutionsSince
      rw [World.since_append _ w
        (w.resolution .get_externalAcceleration_Injected
          ++ [Event.invoke p this [⟨.vector3Ref, Vector3.zero⟩]])
        (by rw [h1, List.append_assoc])]
      rw [List.countP_append, (w.resolution_count _).2, if_pos hc]
      rfl
    · unfold World.resolutionsSince
      rw [World.since_append _ (Cloth_get_externalAcceleration H this w).world
        ((Cloth_get_externalAcceleration H this w).world.resolution
            .get_externalAcceleration_Injected
          ++ [Event.invoke p this [⟨.vector3Ref, Vector3.zero⟩]])
        (by rw [h2, List.append_assoc])]
      rw [List.countP_append, (World.resolution_count _ _).2, hc1]
      rfl

/-- Witness of C13: handle 5 at process start of the sample engine, whose
entry point 3 changes nothing. -/
theorem scenario_two_same_value_witness :
    (World.init (Store.blank (fun _ => F32.zero))).entry frequencyStore
        .get_externalAcceleration_Injected = some 3 ∧
    (Cloth_get_externalAcceleration frequencyStore 5
        (Cloth_get_externalAcceleration frequencyStore 5
          (World.init (Store.blank (fun _ => F32.zero)))).world).result
      = (Cloth_get_externalAcceleration frequencyStore 5
          (World.init (Store.blank (fun _ => F32.zero)))).result :=
  ⟨by decide,
   (scenario_two_same_value frequencyStore 5 (World.init (Store.blank (fun _ => F32.zero)))
      3 (by decide) rfl).1⟩

/-- C14: a wrapper call leaves the cache of every other call site as it was,
and its store is the one the external operation left (or the old one when
nothing was invoked); so when the external operation leaves the store
unchanged, the store after the call is the store before it, and with it the
cached native pointer and the two backing fields of every object.  Its own
cache then holds the entry point the call went through. -/
theorem wrapper_frame {σ : Type} (H : Host σ) (c : CallSite) (this : Handle)
    (args : Args c.sig.params) (w : World σ)
    (hx : ∀ p, w.entry H c = some p → (H.native p c.sig this args w.store).store = w.store) :
    (∀ d, d ≠ c → (icall H c this args w).world.icall_func d = w.icall_func d) ∧
    (icall H c this args w).world.store = w.store ∧
    (∀ obj : Handle,
      ((icall H c this args w).world.store.heap obj).useContinuousCollision
        = (w.store.heap obj).useContinuousCollision ∧
      ((icall H c this args w).world.store.heap obj).selfCollision
        = (w.store.heap obj).selfCollision ∧
      ((icall H c this args w).world.store.heap obj).m_CachedPtr
        = (w.store.heap obj).m_CachedPtr) ∧
    (∀ p, w.entry H c = some p → (icall H c this args w).world.icall_func c = some p) ∧
    (w.entry H c = none → (icall H c this args w).world.icall_func = w.icall_func) := by
  have hstore : (icall H c this args w).world.store = w.store := by
    cases he : w.entry H c with
    | some p =>
      rw [icall_entry H c this args w p he]
      exact hx p he
    | none =>
      unfold World.entry at he
      cases hc : w.icall_func c with
      | some q =>
        rw [hc] at he
        cases he
      | none =>
        rw [hc] at he
        rw [icall_missing H c this args w hc he]
  refine ⟨?_, hstore, ?_, ?_, ?_⟩
  · intro d hd
    cases he : w.entry H c with
    | some p =>
      rw [icall_entry H c this args w p he]
      exact Function.update_noteq hd (some p) w.icall_func
    | none =>
      unfold World.entry at he
      cases hc : w.icall_func c with
      | some q =>
        rw [hc] at he
        cases he
      | none =>
        rw [hc] at he
        rw [icall_missing H c this args w hc he]
  · intro obj
    rw [hstore]
    exact ⟨rfl, rfl, rfl⟩
  · intro p he
    rw [icall_entry H c this args w p he]
    exact Function.update_same c (some p) w.icall_func
  · intro he
    unfold World.entry at he
    cases hc : w.icall_func c with
    | some q =>
      rw [hc] at he
      cases he
    | none =>
      rw [hc] at he
      rw [icall_missing H c this args w hc he]

/-- Witness of C14: a read of the damping on the sample engine, whose entry
point 3 changes nothing. -/
theorem wrapper_frame_witness :
    (∀ p, (World.init (Store.blank (fun _ => F32.c120))).entry frequencyStore .get_damping
        = some p →
      (frequencyStore.native p CallSite.get_damping.sig 1 ()
        (World.init (Store.blank (fun _ => F32.c120)) : World (Handle → F32)).store).store
        = (World.init (Store.blank (fun _ => F32.c120)) : World (Handle → F32)).store) ∧
    (icall frequencyStore .get_damping 1 ()
        (World.init (Store.blank (fun _ => F32.c120)))).world.store
      = (World.init (Store.blank (fun _ => F32.c120)) : World (Handle → F32)).store :=
  have hx : ∀ p, (World.init (Store.blank (fun _ => F32.c120))).entry frequencyStore
      .get_damping = some p →
      (frequencyStore.native p CallSite.get_damping.sig 1 ()
        (World.init (Store.blank (fun _ => F32.c120)) : World (Handle → F32)).store).store
        = (World.init (Store.blank (fun _ => F32.c120)) : World (Handle → F32)).store := by
    intro p hp
    have h3 : p = 3 := by
      have : (World.init (Store.blank (fun _ => F32.c120))).entry frequencyStore .get_damping
          = some 3 := by decide
      rw [this] at hp
      exact (Option.some.inj hp).symm
    subst h3
    rfl
  ⟨hx, (wrapper_frame frequencyStore .get_damping 1 ()
      (World.init (Store.blank (fun _ => F32.c120))) hx).2.1⟩

/-! ## The table of keys -/

set_option maxRecDepth 100000 in
theorem CallSite.keys_nodup : (CallSite.all.map CallSite.key).Nodup := by decide

theorem CallSite.mem_all (c : CallSite) : c ∈ CallSite.all := by
  have h : CallSite.all.elem c = true := by cases c <;> rfl
  exact List.mem_of_elem_eq_true h

theorem CallSite.key_injective : Function.Injective CallSite.key := by
  intro c d h
  exact List.inj_on_of_nodup_map CallSite.keys_nodup (CallSite.mem_all c) (CallSite.mem_all d) h

/-- C15: two different call sites never pass the same key string to the
resolver; the 55 keys of the file, listed in order, have no repetition. -/
theorem keys_pairwise_distinct :
    (∀ c d : CallSite, c ≠ d → c.key ≠ d.key) ∧
    (CallSite.all.map CallSite.key).Nodup ∧
    CallSite.all.length = 55 ∧
    (∀ c : CallSite, c ∈ CallSite.all) :=
  ⟨fun _ _ hne hk => hne (CallSite.key_injective hk), CallSite.keys_nodup, rfl,
   CallSite.mem_all⟩

/-- Witness of C15: a getter and the setter of the same property. -/
theorem keys_pairwise_distinct_witness :
    CallSite.get_damping ≠ CallSite.set_damping ∧
    CallSite.get_damping.key ≠ CallSite.set_damping.key :=
  ⟨by decide, keys_pairwise_distinct.1 .get_damping .set_damping (by decide)⟩

theorem Args.toVals_length : ∀ (ts : List Ty) (args : Args ts),
    (Args.toVals args).length = ts.length
  | [], _ => rfl
  | _ :: ts, (_, rest) => congrArg Nat.succ (Args.toVals_length ts rest)

theorem CallSite.keyArity_eq (c : CallSite) : keyArity c.key = c.sig.params.length := by
  cases c <;> rfl

/-- C16: at every call site the number of parameter types between the
parentheses of the key equals the number of arguments passed to the entry
point after the handle.  That number is 0 for every wrapper that returns a
value (the property getters) and for `ClearTransformMotion`, 1 for every
`set_` wrapper, for the list operations and for the injected vector getters
(which pass the output reference), 2 for `SetEnabledFading` and 4 for
`Raycast_Injected`. -/
theorem key_arity_matches_arguments :
    (∀ (c : CallSite) (args : Args c.sig.params),
      keyArity c.key = (Args.toVals args).length) ∧
    (∀ c : CallSite, c.sig.ret ≠ Ty.void → keyArity c.key = 0) ∧
    keyArity CallSite.ClearTransformMotion.key = 0 ∧
    (∀ c : CallSite, "UnityEngine.Cloth::set_".toList.isPrefixOf c.key.toList = true →
      keyArity c.key = 1) ∧
    (∀ c : CallSite, c.sig.ret = Ty.void → c ≠ .ClearTransformMotion →
      c ≠ .SetEnabledFading → c ≠ .Raycast_Injected → keyArity c.key = 1) ∧
    keyArity CallSite.SetEnabledFading.key = 2 ∧
    keyArity CallSite.Raycast_Injected.key = 4 := by
  refine ⟨?_, ?_, rfl, ?_, ?_, rfl, rfl⟩
  · intro c args
    rw [Args.toVals_length, CallSite.keyArity_eq]
  · intro c hc
    cases c <;> first | rfl | exact absurd rfl hc
  · intro c hc
    cases c <;> first | rfl | exact absurd hc (by decide)
  · intro c hc h1 h2 h3
    cases c <;>
      (first
        | rfl
        | exact absurd rfl h1
        | exact absurd rfl h2
        | exact absurd rfl h3
        | exact absurd hc (by decide))

/-- Witness of C16: the key of `Raycast_Injected` lists four types and the
wrapper passes four arguments after the handle. -/
theorem key_arity_matches_arguments_witness :
    keyArity "UnityEngine.Cloth::Raycast_Injected(UnityEngine.Ray&,System.Single,System.Boolean&,UnityEngine.RaycastHit&)"
      = 4 ∧
    (@Args.toVals CallSite.Raycast_Injected.sig.params
      (⟨Vector3.zero, Vector3.zero⟩, F32.half, false, RaycastHit.zero, ())).length = 4 :=
  ⟨rfl,
   (key_arity_matches_arguments.1 .Raycast_Injected
      (⟨Vector3.zero, Vector3.zero⟩, F32.half, false, RaycastHit.zero, ())).symm.trans rfl⟩

/-! ## The struct-passing wrappers as forwards -/

theorem World.entry_none {σ : Type} (H : Host σ) (w : World σ) (c : CallSite)
    (he : w.entry H c = none) : w.icall_func c = none ∧ H.resolve_icall c.key = none := by
  unfold World.entry at he
  cases hc : w.icall_func c with
  | some q =>
    rw [hc] at he
    cases he
  | none =>
    rw [hc] at he
    exact ⟨rfl, he⟩

/-- A wrapper that returns nothing is the plain forward of its operation. -/
theorem icall_map_unit_eq_plainForward {σ : Type} (H : Host σ) (c : CallSite) (this : Handle)
    (args : Args c.sig.params) (w : World σ) :
    (icall H c this args w).map (fun _ => ()) = plainForward H c this args w := by
  unfold plainForward
  cases he : w.entry H c with
  | some p =>
    rw [icall_entry H c this args w p he]
    rfl
  | none =>
    obtain ⟨hc, hr⟩ := World.entry_none H w c he
    rw [icall_missing H c this args w hc hr]
    rfl

theorem World.invocations_of_since {σ : Type} (w w0 : World σ) (pre : List Event)
    (e : Event) (h : w.since w0 = pre ++ [e]) (hpre : pre.countP Event.isInvoke = 0)
    (he : e.isInvoke = true) : w.invocationsSince w0 = 1 := by
  unfold World.invocationsSince
  rw [h, List.countP_append, hpre]
  simp [List.countP_cons, he]

/-- C17: `Cloth_set_externalAcceleration(handle, v)` and
`Cloth_set_randomAcceleration(handle, v)` are the plain forward of their
injected operation with the handle and a reference to `v`: with the entry
point available the external operation is invoked exactly once, with the same
handle and a slot whose content is `v`, and the call ends as that operation
ends. -/
theorem vector_setters_plain_forward {σ : Type} (H : Host σ) (this : Handle) (v : Vector3)
    (w : World σ) :
    Cloth_set_externalAcceleration H this v w
      = plainForward H .set_externalAcceleration_Injected this (v, ()) w ∧
    Cloth_set_randomAcceleration H this v w
      = plainForward H .set_randomAcceleration_Injected this (v, ()) w ∧
    (∀ p, w.entry H .set_externalAcceleration_Injected = some p →
      (Cloth_set_externalAcceleration H this v w).world.since w
        = w.resolution .set_externalAcceleration_Injected
            ++ [Event.invoke p this [⟨.vector3Ref, v⟩]] ∧
      (Cloth_set_externalAcceleration H this v w).world.invocationsSince w = 1 ∧
      (Cloth_set_externalAcceleration H this v w).result
        = (H.native p CallSite.set_externalAcceleration_Injected.sig this (v, ())
            w.store).result.map (fun _ => ())) ∧
    (∀ p, w.entry H .set_randomAcceleration_Injected = some p →
      (Cloth_set_randomAcceleration H this v w).world.since w
        = w.resolution .set_randomAcceleration_Injected
            ++ [Event.invoke p this [⟨.vector3Ref, v⟩]] ∧
      (Cloth_set_randomAcceleration H this v w).world.invocationsSince w = 1 ∧
      (Cloth_set_randomAcceleration H this v w).result
        = (H.native p CallSite.set_randomAcceleration_Injected.sig this (v, ())
            w.store).result.map (fun _ => ())) := by
  have e1 : Cloth_set_externalAcceleration H this v w
      = (icall H .set_externalAcceleration_Injected this (v, ()) w).map (fun _ => ()) := rfl
  have e2 : Cloth_set_randomAcceleration H this v w
      = (icall H .set_randomAcceleration_Injected this (v, ()) w).map (fun _ => ()) := rfl
  refine ⟨?_, ?_, ?_, ?_⟩
  · rw [e1, icall_map_unit_eq_plainForward]
  · rw [e2, icall_map_unit_eq_plainForward]
  · intro p he
    rw [e1, Outcome.map_world, Outcome.map_result]
    refine ⟨icall_since H _ this (v, ()) w p he, icall_invocations H _ this (v, ()) w p he, ?_⟩
    rw [icall_entry H _ this (v, ()) w p he]
  · intro p he
    rw [e2, Outcome.map_world, Outcome.map_result]
    refine ⟨icall_since H _ this (v, ()) w p he, icall_invocations H _ this (v, ()) w p he, ?_⟩
    rw [icall_entry H _ this (v, ()) w p he]

/-- Witness of C17: a vector handed to `Cloth_set_externalAcceleration` on
handle 9 at process start of the sample engine. -/
theorem vector_setters_plain_forward_witness :
    (World.init (Store.blank (fun _ => F32.zero))).entry frequencyStore
        .set_externalAcceleration_Injected = some 3 ∧
    (Cloth_set_externalAcceleration frequencyStore 9 ⟨F32.half, F32.zero, F32.c120⟩
        (World.init (Store.blank (fun _ => F32.zero)))).world.since
          (World.init (Store.blank (fun _ => F32.zero)))
      = [Event.resolve "UnityEngine.Cloth::set_externalAcceleration_Injected(UnityEngine.Vector3&)",
         Event.invoke 3 9 [⟨.vector3Ref, ⟨F32.half, F32.zero, F32.c120⟩⟩]] :=
  ⟨by decide,
   ((vector_setters_plain_forward frequencyStore 9 ⟨F32.half, F32.zero, F32.c120⟩
      (World.init (Store.blank (fun _ => F32.zero)))).2.2.1 3 (by decide)).1⟩

/-- C18: with its entry point available, `Cloth_Raycast` invokes the injected
operation once with the same handle, a slot holding the ray it was given, the
same `maxDistance`, the caller's `hasHit` slot and a zeroed `RaycastHit` slot;
it ends as that operation ends, and when the operation returns, the value is
the record the operation left in the zeroed slot together with what it left
in `hasHit`. -/
theorem Raycast_faithful {σ : Type} (H : Host σ) (this : Handle) (ray : Ray)
    (maxDistance : F32) (hasHit : Bool) (w : World σ) (p : EntryPoint)
    (he : w.entry H .Raycast_Injected = some p) :
    (Cloth_Raycast H this ray maxDistance hasHit w).world.since w
      = w.resolution .Raycast_Injected
          ++ [Event.invoke p this [⟨.rayRef, ray⟩, ⟨.single, maxDistance⟩,
                ⟨.booleanRef, hasHit⟩, ⟨.raycastHitRef, RaycastHit.zero⟩]] ∧
    (Cloth_Raycast H this ray maxDistance hasHit w).world.invocationsSince w = 1 ∧
    (Cloth_Raycast H this ray maxDistance hasHit w).result
      = (H.native p CallSite.Raycast_Injected.sig this
          (ray, maxDistance, hasHit, RaycastHit.zero, ()) w.store).result.map
            (fun r => (r.2.2.2.2.1, r.2.2.2.1)) ∧
    (Cloth_Raycast H this ray maxDistance hasHit w).world.store
      = (H.native p CallSite.Raycast_Injected.sig this
          (ray, maxDistance, hasHit, RaycastHit.zero, ()) w.store).store ∧
    (∀ (ray' : Ray) (d' : F32) (hasHit' : Bool) (hit' : RaycastHit),
      (H.native p CallSite.Raycast_Injected.sig this
          (ray, maxDistance, hasHit, RaycastHit.zero, ()) w.store).result
        = .ok ((), (ray', d', hasHit', hit', ())) →
      (Cloth_Raycast H this ray maxDistance hasHit w).result = .ok (hit', hasHit')) := by
  have h := Raycast_eq H this ray maxDistance hasHit w p he
  have hsince : (Cloth_Raycast H this ray maxDistance hasHit w).world.since w
      = w.resolution .Raycast_Injected
          ++ [Event.invoke p this [⟨.rayRef, ray⟩, ⟨.single, maxDistance⟩,
                ⟨.booleanRef, hasHit⟩, ⟨.raycastHitRef, RaycastHit.zero⟩]] := by
    apply World.since_append
    rw [h, List.append_assoc]
  refine ⟨hsince, ?_, ?_, ?_, ?_⟩
  · exact World.invocations_of_since _ w _ _ hsince (w.resolution_count _).1 rfl
  · rw [h]
  · rw [h]
  · intro ray' d' hasHit' hit' hr
    rw [h]
    simp only [hr, Except.map]

/-- Witness of C18: a ray cast on handle 5 at process start of the sample
engine, which writes nothing: the zero record comes back and `hasHit` keeps
its content. -/
theorem Raycast_faithful_witness :
    (World.init (Store.blank (fun _ => F32.zero))).entry frequencyStore .Raycast_Injected
      = some 3 ∧
    (Cloth_Raycast frequencyStore 5 ⟨Vector3.zero, Vector3.zero⟩ F32.c120 true
        (World.init (Store.blank (fun _ => F32.zero)))).result
      = .ok (RaycastHit.zero, true) :=
  ⟨by decide,
   (Raycast_faithful frequencyStore 5 ⟨Vector3.zero, Vector3.zero⟩ F32.c120 true
      (World.init (Store.blank (fun _ => F32.zero))) 3 (by decide)).2.2.2.2
        ⟨Vector3.zero, Vector3.zero⟩ F32.c120 true RaycastHit.zero rfl⟩

/-! ## How often a call reaches the engine -/

theorem icall_returns {σ : Type} (H : Host σ) (c : CallSite) (this : Handle)
    (args : Args c.sig.params) (w : World σ) (p : EntryPoint)
    (he : w.entry H c = some p) (r : c.sig.ret.denote × Args c.sig.params)
    (hr : (H.native p c.sig this args w.store).result = .ok r) :
    (icall H c this args w).result = .ok r := by
  rw [icall_entry H c this args w p he]
  exact hr

theorem World.invocations_self {σ : Type} (w u : World σ) (h : u.log = w.log) :
    u.invocationsSince w = 0 := by
  unfold World.invocationsSince World.since
  rw [h, List.drop_length]
  rfl

/-- C20, as stated, fails: on the sample engine, where the setter's key
resolves and every external operation returns, `Cloth_set_solverFrequency` on
the null handle does not return (it raises at its null check) and invokes
nothing, while on handle 1 it returns after one invocation. -/
theorem set_solverFrequency_not_bounded_forward :
    frequencyStore.resolve_icall CallSite.set_clothSolverFrequency.key = some 2 ∧
    (Cloth_set_solverFrequency frequencyStore null false
        (World.init (Store.blank (fun _ => F32.zero)))).result = .error .nullReference ∧
    (Cloth_set_solverFrequency frequencyStore null false
        (World.init (Store.blank (fun _ => F32.zero)))).world.invocationsSince
          (World.init (Store.blank (fun _ => F32.zero))) = 0 ∧
    (Cloth_set_solverFrequency frequencyStore 1 false
        (World.init (Store.blank (fun _ => F32.zero)))).result = .ok () ∧
    (Cloth_set_solverFrequency frequencyStore 1 false
        (World.init (Store.blank (fun _ => F32.zero)))).world.invocationsSince
          (World.init (Store.blank (fun _ => F32.zero))) = 1 :=
  ⟨rfl, rfl, rfl, rfl, rfl⟩

/-- C20, amended: when the entry point of a call site is available and the
external operation behind it returns, the icall wrapper of the site returns
after exactly one invocation, for every handle and argument list; so do the
struct-return wrappers, the one-argument `Cloth_SetEnabledFading` and
`Cloth_get_solverFrequency` built on the site, and `Cloth_set_solverFrequency`
on a non-null handle.  On the null handle `Cloth_set_solverFrequency` raises
at its null check after no invocation.  The field-backed accessors return
after no invocation on the handle of a live object. -/
theorem bounded_forward {σ : Type} (H : Host σ) (c : CallSite) (this : Handle)
    (args : Args c.sig.params) (w : World σ) (p : EntryPoint)
    (he : w.entry H c = some p)
    (hret : ∀ a : Args c.sig.params, ∃ r, (H.native p c.sig this a w.store).result = .ok r) :
    ((∃ r, (icall H c this args w).result = .ok r) ∧
      (icall H c this args w).world.invocationsSince w = 1) ∧
    (c = .get_externalAcceleration_Injected →
      (∃ v, (Cloth_get_externalAcceleration H this w).result = .ok v) ∧
      (Cloth_get_externalAcceleration H this w).world.invocationsSince w = 1) ∧
    (c = .get_randomAcceleration_Injected →
      (∃ v, (Cloth_get_randomAcceleration H this w).result = .ok v) ∧
      (Cloth_get_randomAcceleration H this w).world.invocationsSince w = 1) ∧
    (c = .set_externalAcceleration_Injected → ∀ value : Vector3,
      (Cloth_set_externalAcceleration H this value w).result = .ok () ∧
      (Cloth_set_externalAcceleration H this value w).world.invocationsSince w = 1) ∧
    (c = .set_randomAcceleration_Injected → ∀ value : Vector3,
      (Cloth_set_randomAcceleration H this value w).result = .ok () ∧
      (Cloth_set_randomAcceleration H this value w).world.invocationsSince w = 1) ∧
    (c = .Raycast_Injected → ∀ (ray : Ray) (maxDistance : F32) (hasHit : Bool),
      (∃ v, (Cloth_Raycast H this ray maxDistance hasHit w).result = .ok v) ∧
      (Cloth_Raycast H this ray maxDistance hasHit w).world.invocationsSince w = 1) ∧
    (c = .SetEnabledFading → ∀ enabled : Bool,
      (Cloth_SetEnabledFading_mFC216321A4512E3BD8A3EA2557F723E92FBDE12B H this enabled
          w).result = .ok () ∧
      (Cloth_SetEnabledFading_mFC216321A4512E3BD8A3EA2557F723E92FBDE12B H this enabled
          w).world.invocationsSince w = 1) ∧
    (c = .get_clothSolverFrequency →
      (∃ b, (Cloth_get_solverFrequency H this w).result = .ok b) ∧
      (Cloth_get_solverFrequency H this w).world.invocationsSince w = 1) ∧
    (c = .set_clothSolverFrequency → ∀ b : Bool, this ≠ null →
      (Cloth_set_solverFrequency H this b w).result = .ok () ∧
      (Cloth_set_solverFrequency H this b w).world.invocationsSince w = 1) ∧
    (∀ b : Bool,
      (Cloth_set_solverFrequency H null b w).result = .error .nullReference ∧
      (Cloth_set_solverFrequency H null b w).world.invocationsSince w = 0) ∧
    (∀ (obj : Handle) (v : F32), obj ≠ null →
      ((∃ x, (Cloth_get_useContinuousCollision obj w).result = .ok x) ∧
        (Cloth_get_useContinuousCollision obj w).world.invocationsSince w = 0) ∧
      ((Cloth_set_useContinuousCollision obj v w).result = .ok () ∧
        (Cloth_set_useContinuousCollision obj v w).world.invocationsSince w = 0) ∧
      ((∃ x, (Cloth_get_selfCollision obj w).result = .ok x) ∧
        (Cloth_get_selfCollision obj w).world.invocationsSince w = 0)) := by
  refine ⟨?_, ?_, ?_, ?_, ?_, ?_, ?_, ?_, ?_, ?_, ?_⟩
  · obtain ⟨r, hr⟩ := hret args
    exact ⟨⟨r, icall_returns H c this args w p he r hr⟩, icall_invocations H c this args w p he⟩
  · intro h
    subst h
    obtain ⟨r, hr⟩ := hret (Vector3.zero, ())
    refine ⟨⟨r.2.1, ?_⟩, icall_invocations H .get_externalAcceleration_Injected this (Vector3.zero, ()) w p he⟩
    show Except.map _ (icall H .get_externalAcceleration_Injected this
      (Vector3.zero, ()) w).result = _
    rw [icall_returns H .get_externalAcceleration_Injected this (Vector3.zero, ()) w p he r hr]
    rfl
  · intro h
    subst h
    obtain ⟨r, hr⟩ := hret (Vector3.zero, ())
    refine ⟨⟨r.2.1, ?_⟩, icall_invocations H .get_randomAcceleration_Injected this (Vector3.zero, ()) w p he⟩
    show Except.map _ (icall H .get_randomAcceleration_Injected this
      (Vector3.zero, ()) w).result = _
    rw [icall_returns H .get_randomAcceleration_Injected this (Vector3.zero, ()) w p he r hr]
    rfl
  · intro h value
    subst h
    obtain ⟨r, hr⟩ := hret (value, ())
    refine ⟨?_, icall_invocations H .set_externalAcceleration_Injected this (value, ()) w p he⟩
    show Except.map _ (icall H .set_externalAcceleration_Injected this (value, ()) w).result = _
    rw [icall_returns H .set_externalAcceleration_Injected this (value, ()) w p he r hr]
    rfl
  · intro h value
    subst h
    obtain ⟨r, hr⟩ := hret (value, ())
    refine ⟨?_, icall_invocations H .set_randomAcceleration_Injected this (value, ()) w p he⟩
    show Except.map _ (icall H .set_randomAcceleration_Injected this (value, ()) w).result = _
    rw [icall_returns H .set_randomAcceleration_Injected this (value, ()) w p he r hr]
    rfl
  · intro h ray maxDistance hasHit
    subst h
    obtain ⟨r, hr⟩ := hret (ray, maxDistance, hasHit, RaycastHit.zero, ())
    refine ⟨⟨(r.2.2.2.2.1, r.2.2.2.1), ?_⟩,
      icall_invocations H .Raycast_Injected this (ray, maxDistance, hasHit, RaycastHit.zero, ()) w p he⟩
    show Except.map _ (Except.map _ (icall H .Raycast_Injected this
      (ray, maxDistance, hasHit, RaycastHit.zero, ()) w).result) = _
    rw [icall_returns H .Raycast_Injected this (ray, maxDistance, hasHit, RaycastHit.zero, ()) w p he r hr]
    rfl
  · intro h enabled
    subst h
    obtain ⟨r, hr⟩ := hret (enabled, F32.half, ())
    refine ⟨?_, icall_invocations H .SetEnabledFading this (enabled, F32.half, ()) w p he⟩
    show Except.map _ (icall H .SetEnabledFading this (enabled, F32.half, ()) w).result = _
    rw [icall_returns H .SetEnabledFading this (enabled, F32.half, ()) w p he r hr]
    rfl
  · intro h
    subst h
    obtain ⟨r, hr⟩ := hret ()
    refine ⟨⟨F32.gt r.1 F32.zero, ?_⟩, icall_invocations H .get_clothSolverFrequency this () w p he⟩
    show Except.map _ (Except.map _ (icall H .get_clothSolverFrequency this () w).result) = _
    rw [icall_returns H .get_clothSolverFrequency this () w p he r hr]
    rfl
  · intro h b hn
    subst h
    obtain ⟨r, hr⟩ := hret ((if b then F32.c120 else F32.zero), ())
    rw [set_solverFrequency_eq H this b w hn]
    refine ⟨?_, icall_invocations H .set_clothSolverFrequency this ((if b then F32.c120 else F32.zero), ()) w p he⟩
    show Except.map _ (icall H .set_clothSolverFrequency this
      ((if b then F32.c120 else F32.zero), ()) w).result = _
    rw [icall_returns H .set_clothSolverFrequency this ((if b then F32.c120 else F32.zero), ()) w p he r hr]
    rfl
  · intro b
    have e : Cloth_set_solverFrequency H null b w = ⟨.error .nullReference, w⟩ := by
      cases b <;> rfl
    rw [e]
    exact ⟨rfl, World.invocations_self w w rfl⟩
  · intro obj v _
    exact ⟨⟨⟨_, rfl⟩, World.invocations_self w _ rfl⟩, ⟨rfl, World.invocations_self w _ rfl⟩,
      ⟨⟨_, rfl⟩, World.invocations_self w _ rfl⟩⟩

/-- Witness of C20, amended: `Cloth_ClearTransformMotion`'s call site on the
sample engine, whose operations all return. -/
theorem bounded_forward_witness :
    (World.init (Store.blank (fun _ => F32.zero))).entry frequencyStore .ClearTransformMotion
      = some 3 ∧
    (∀ a : Args CallSite.ClearTransformMotion.sig.params, ∃ r,
      (frequencyStore.native 3 CallSite.ClearTransformMotion.sig 1 a
        (World.init (Store.blank (fun _ => F32.zero)) : World (Handle → F32)).store).result
        = .ok r) ∧
    (icall frequencyStore .ClearTransformMotion 1 ()
        (World.init (Store.blank (fun _ => F32.zero)))).world.invocationsSince
          (World.init (Store.blank (fun _ => F32.zero))) = 1 :=
  ⟨by decide, fun _ => ⟨_, rfl⟩,
   (bounded_forward frequencyStore .ClearTransformMotion 1 ()
      (World.init (Store.blank (fun _ => F32.zero))) 3 (by decide)
      (fun _ => ⟨_, rfl⟩)).1.2⟩

/-! ## Round trip of the derived boolean -/

/-- C21: on the engine that stores the solver frequency per handle, from any
world with sound caches, for every non-null handle and every boolean `b`:
`Cloth_set_solverFrequency(handle, b)` returns, and `Cloth_get_solverFrequency`
called next returns `b`; the constant assigned for true is positive and the
one assigned for false is not. -/
theorem solverFrequency_get_after_set (h : Handle) (b : Bool) (w : World (Handle → F32))
    (hn : h ≠ null) (hs : w.Sound frequencyStore) :
    (Cloth_set_solverFrequency frequencyStore h b w).result = .ok () ∧
    (Cloth_get_solverFrequency frequencyStore h
        (Cloth_set_solverFrequency frequencyStore h b w).world).result = .ok b ∧
    F32.c120.IsPos ∧ ¬ F32.zero.IsPos := by
  have hpos : F32.gt F32.c120 F32.zero = true := by decide
  have hzero : F32.gt F32.zero F32.zero = false := by decide
  have e := set_solverFrequency_eq frequencyStore h b w hn
  obtain ⟨hr, he, hsnd⟩ :=
    frequencyStore_set h (if b then F32.c120 else F32.zero) w hs
  rw [← e] at hr he hsnd
  obtain ⟨hg, -, -⟩ :=
    frequencyStore_get h (Cloth_set_solverFrequency frequencyStore h b w).world hsnd
  refine ⟨hr, ?_, (F32.gt_zero_iff _).1 hpos, ?_⟩
  · show ((Cloth_get_clothSolverFrequency frequencyStore h
        (Cloth_set_solverFrequency frequencyStore h b w).world).map
          (fun L_0 => F32.gt L_0 F32.zero)).result = .ok b
    rw [Outcome.map_result, hg, he]
    cases b
    · exact congrArg Except.ok hzero
    · exact congrArg Except.ok hpos
  · intro hp
    have := (F32.gt_zero_iff _).2 hp
    rw [hzero] at this
    cases this

/-- Witness of C21: handle 1, value true, at process start of the sample
engine. -/
theorem solverFrequency_get_after_set_witness :
    (1 : Handle) ≠ null ∧ (World.init (Store.blank (fun _ => F32.zero))).Sound frequencyStore ∧
    (Cloth_get_solverFrequency frequencyStore 1
        (Cloth_set_solverFrequency frequencyStore 1 true
          (World.init (Store.blank (fun _ => F32.zero)))).world).result = .ok true :=
  ⟨by decide, World.init_sound _ _,
   (solverFrequency_get_after_set 1 true (World.init (Store.blank (fun _ => F32.zero)))
      (by decide) (World.init_sound _ _)).2.1⟩

/-! ## After a failed resolution -/

/-- C22: a call in which the resolution of the wrapper's key failed leaves
every call-site cache as it was, so the wrapper's own cache is still null; the
next call to the same wrapper, made when the host has come to know the key,
calls the resolver again, then invokes the resolved entry point with its
handle and arguments, ends as the external operation ends, and leaves the
cache filled. -/
theorem retry_after_failed_resolution {σ : Type} (H1 H2 : Host σ) (c : CallSite)
    (this1 this2 : Handle) (args1 args2 : Args c.sig.params) (w : World σ) (p : EntryPoint)
    (hs : w.Sound H1) (hr1 : H1.resolve_icall c.key = none)
    (hr2 : H2.resolve_icall c.key = some p) :
    (icall H1 c this1 args1 w).result = .error (.missingMethod c.key) ∧
    (icall H1 c this1 args1 w).world.icall_func = w.icall_func ∧
    (icall H1 c this1 args1 w).world.icall_func c = none ∧
    (icall H2 c this2 args2 (icall H1 c this1 args1 w).world).world.since
        (icall H1 c this1 args1 w).world
      = [Event.resolve c.key, Event.invoke p this2 (Args.toVals args2)] ∧
    (icall H2 c this2 args2 (icall H1 c this1 args1 w).world).result
      = (H2.native p c.sig this2 args2 w.store).result ∧
    (icall H2 c this2 args2 (icall H1 c this1 args1 w).world).world.icall_func c = some p := by
  have hc : w.icall_func c = none := by
    cases hq : w.icall_func c with
    | none => rfl
    | some q =>
      rw [hs c q hq] at hr1
      cases hr1
  have h1 := icall_missing H1 c this1 args1 w hc hr1
  have hc1 : (icall H1 c this1 args1 w).world.icall_func c = none := by
    rw [h1]
    exact hc
  have hst : (icall H1 c this1 args1 w).world.store = w.store := by
    rw [h1]
  have h2 := icall_fresh H2 c this2 args2 (icall H1 c this1 args1 w).world p hc1 hr2
  refine ⟨?_, ?_, hc1, ?_, ?_, ?_⟩
  · rw [h1]
  · rw [h1]
  · apply World.since_append
    rw [h2]
    simp [invoke]
  · rw [h2]
    show (H2.native p c.sig this2 args2 (icall H1 c this1 args1 w).world.store).result = _
    rw [hst]
  · rw [h2]
    exact Function.update_same c (some p) (icall H1 c this1 args1 w).world.icall_func

/-- Witness of C22: a read of the solver frequency before and after the sample
engine's library is loaded. -/
theorem retry_after_failed_resolution_witness :
    (World.init (Store.blank (fun _ => F32.c120))).Sound frequencyStore.unloaded ∧
    frequencyStore.unloaded.resolve_icall CallSite.get_clothSolverFrequency.key = none ∧
    frequencyStore.resolve_icall CallSite.get_clothSolverFrequency.key = some 1 ∧
    (icall frequencyStore .get_clothSolverFrequency 1 ()
        (icall frequencyStore.unloaded .get_clothSolverFrequency 1 ()
          (World.init (Store.blank (fun _ => F32.c120)))).world).result
      = .ok (F32.c120, ()) :=
  ⟨World.init_sound _ _, rfl, rfl,
   (retry_after_failed_resolution frequencyStore.unloaded frequencyStore
      .get_clothSolverFrequency 1 1 () () (World.init (Store.blank (fun _ => F32.c120))) 1
      (World.init_sound _ _) rfl rfl).2.2.2.2.1⟩

/-! ## The one-argument overload and the field-backed setter -/

/-- C23: the one-argument `Cloth_SetEnabledFading(handle, e)` is the
two-argument `Cloth_SetEnabledFading(handle, e, 0.5f)`, same outcome and same
world, where `0.5f` denotes one half; with the entry point available that is
one invocation, with the handle, the flag and `0.5f` in this order. -/
theorem SetEnabledFading_overload {σ : Type} (H : Host σ) (this : Handle) (e : Bool)
    (w : World σ) :
    Cloth_SetEnabledFading_mFC216321A4512E3BD8A3EA2557F723E92FBDE12B H this e w
      = Cloth_SetEnabledFading_mD98337A5404F8314CB32D91644F6995579D9855F H this e F32.half w ∧
    F32.half.toRat = 1 / 2 ∧
    (∀ p, w.entry H .SetEnabledFading = some p →
      (Cloth_SetEnabledFading_mFC216321A4512E3BD8A3EA2557F723E92FBDE12B H this e w).world.since w
        = w.resolution .SetEnabledFading
            ++ [Event.invoke p this [⟨.boolean, e⟩, ⟨.single, F32.half⟩]] ∧
      (Cloth_SetEnabledFading_mFC216321A4512E3BD8A3EA2557F723E92FBDE12B H this e
          w).world.invocationsSince w = 1) := by
  refine ⟨rfl, F32.toRat_half, ?_⟩
  intro p he
  have hw : (Cloth_SetEnabledFading_mFC216321A4512E3BD8A3EA2557F723E92FBDE12B H this e w).world
      = (icall H .SetEnabledFading this (e, F32.half, ()) w).world := rfl
  rw [hw]
  exact ⟨icall_since H .SetEnabledFading this (e, F32.half, ()) w p he,
    icall_invocations H .SetEnabledFading this (e, F32.half, ()) w p he⟩

/-- Witness of C23: fading in on handle 2 at process start of the sample
engine. -/
theorem SetEnabledFading_overload_witness :
    (World.init (Store.blank (fun _ => F32.zero))).entry frequencyStore .SetEnabledFading
      = some 3 ∧
    (Cloth_SetEnabledFading_mFC216321A4512E3BD8A3EA2557F723E92FBDE12B frequencyStore 2 true
        (World.init (Store.blank (fun _ => F32.zero)))).world.since
          (World.init (Store.blank (fun _ => F32.zero)))
      = [Event.resolve "UnityEngine.Cloth::SetEnabledFading(System.Boolean,System.Single)",
         Event.invoke 3 2 [⟨.boolean, true⟩, ⟨.single, F32.half⟩]] :=
  ⟨by decide,
   ((SetEnabledFading_overload frequencyStore 2 true
      (World.init (Store.blank (fun _ => F32.zero)))).2.2 3 (by decide)).1⟩

/-- C24: for the handle of a live object and every float `v`,
`Cloth_set_useContinuousCollision(obj, v)` sets the `useContinuousCollision`
field of that object to `v` and changes nothing else: its `selfCollision` field
and its cached native pointer are as before, as are the fields of every other
object, the engine's state, the caches and the log. -/
theorem set_useContinuousCollision_frame {σ : Type} (obj : Handle) (v : F32) (w : World σ)
    (_hobj : obj ≠ null) :
    ((Cloth_set_useContinuousCollision obj v w).world.store.heap obj).useContinuousCollision
      = v ∧
    ((Cloth_set_useContinuousCollision obj v w).world.store.heap obj).selfCollision
      = (w.store.heap obj).selfCollision ∧
    ((Cloth_set_useContinuousCollision obj v w).world.store.heap obj).m_CachedPtr
      = (w.store.heap obj).m_CachedPtr ∧
    (∀ other, other ≠ obj →
      (Cloth_set_useContinuousCollision obj v w).world.store.heap other
        = w.store.heap other) ∧
    (Cloth_set_useContinuousCollision obj v w).world.store.engine = w.store.engine ∧
    (Cloth_set_useContinuousCollision obj v w).world.icall_func = w.icall_func ∧
    (Cloth_set_useContinuousCollision obj v w).world.log = w.log := by
  have hh : (Cloth_set_useContinuousCollision obj v w).world.store.heap
      = Function.update w.store.heap obj
          ⟨(w.store.heap obj).m_CachedPtr, v, (w.store.heap obj).selfCollision⟩ := rfl
  rw [hh]
  refine ⟨?_, ?_, ?_, ?_, rfl, rfl, rfl⟩
  · rw [Function.update_same]
  · rw [Function.update_same]
  · rw [Function.update_same]
  · intro other ho
    exact Function.update_noteq ho _ _

/-- Witness of C24: object 4 at process start of the sample engine. -/
theorem set_useContinuousCollision_frame_witness :
    (4 : Handle) ≠ null ∧
    ((Cloth_set_useContinuousCollision 4 F32.half
        (World.init (Store.blank (fun _ : Handle => F32.zero)))).world.store.heap
          4).selfCollision = false :=
  ⟨by decide,
   (set_useContinuousCollision_frame 4 F32.half
      (World.init (Store.blank (fun _ : Handle => F32.zero))) (by decide)).2.1⟩

/-! ## The selfCollision flag -/

/-- A wrapper call changes the `selfCollision` field of no object, when the
external operations leave it alone. -/
theorem icall_selfCollision {σ : Type} (H : Host σ) (c : CallSite) (this : Handle)
    (args : Args c.sig.params) (w : World σ) (obj : Handle)
    (hext : ∀ p s h (a : Args s.params) st o,
      ((H.native p s h a st).store.heap o).selfCollision = (st.heap o).selfCollision) :
    ((icall H c this args w).world.store.heap obj).selfCollision
      = (w.store.heap obj).selfCollision := by
  cases he : w.entry H c with
  | some p =>
    rw [icall_entry H c this args w p he]
    exact hext p c.sig this args w.store obj
  | none =>
    obtain ⟨hc, hr⟩ := World.entry_none H w c he
    rw [icall_missing H c this args w hc hr]

/-- C25: `Cloth_get_selfCollision` returns the `selfCollision` backing field of
the object, and no operation of the layer writes that field: when the external
operations leave the field alone, each operation of the layer, on any live
handle and with any arguments, leaves a world in which
`Cloth_get_selfCollision` returns for every live object what it returned
before. -/
theorem selfCollision_read_only {σ : Type} (H : Host σ) (this obj : Handle) (op : Op)
    (w : World σ) (hthis : this ≠ null) (_hobj : obj ≠ null)
    (hext : ∀ p s h (a : Args s.params) st o,
      ((H.native p s h a st).store.heap o).selfCollision = (st.heap o).selfCollision) :
    (Cloth_get_selfCollision obj w).result = .ok (w.store.heap obj).selfCollision ∧
    (Cloth_get_selfCollision obj w).world = w ∧
    (Cloth_get_selfCollision obj (op.after H this w)).result
      = (Cloth_get_selfCollision obj w).result := by
  refine ⟨rfl, rfl, ?_⟩
  show Except.ok ((op.after H this w).store.heap obj).selfCollision
    = Except.ok (w.store.heap obj).selfCollision
  apply congrArg
  cases op with
  | wrapper c args => exact icall_selfCollision H c this args w obj hext
  | get_externalAcceleration =>
    exact icall_selfCollision H .get_externalAcceleration_Injected this (Vector3.zero, ()) w
      obj hext
  | set_externalAcceleration value =>
    exact icall_selfCollision H .set_externalAcceleration_Injected this (value, ()) w obj hext
  | get_randomAcceleration =>
    exact icall_selfCollision H .get_randomAcceleration_Injected this (Vector3.zero, ()) w
      obj hext
  | set_randomAcceleration value =>
    exact icall_selfCollision H .set_randomAcceleration_Injected this (value, ()) w obj hext
  | get_solverFrequency =>
    exact icall_selfCollision H .get_clothSolverFrequency this () w obj hext
  | set_solverFrequency value =>
    show ((Cloth_set_solverFrequency H this value w).world.store.heap obj).selfCollision = _
    rw [set_solverFrequency_eq H this value w hthis]
    exact icall_selfCollision H .set_clothSolverFrequency this
      ((if value then F32.c120 else F32.zero), ()) w obj hext
  | get_useContinuousCollision => rfl
  | set_useContinuousCollision value =>
    show (Function.update w.store.heap this
        ⟨(w.store.heap this).m_CachedPtr, value, (w.store.heap this).selfCollision⟩
          obj).selfCollision = _
    by_cases ho : obj = this
    · subst ho
      rw [Function.update_same]
    · rw [Function.update_noteq ho]
  | get_selfCollision => rfl
  | SetEnabledFading enabled =>
    exact icall_selfCollision H .SetEnabledFading this (enabled, F32.half, ()) w obj hext
  | Raycast ray maxDistance hasHit =>
    exact icall_selfCollision H .Raycast_Injected this
      (ray, maxDistance, hasHit, RaycastHit.zero, ()) w obj hext

/-- Witness of C25: the flag of object 4 across a write of the
`useContinuousCollision` field of the same object on the sample engine. -/
theorem selfCollision_read_only_witness :
    (4 : Handle) ≠ null ∧
    (∀ p s h (a : Args s.params) (st : Store (Handle → F32)) o,
      ((frequencyStore.native p s h a st).store.heap o).selfCollision
        = (st.heap o).selfCollision) ∧
    (Cloth_get_selfCollision 4
        ((Op.set_useContinuousCollision F32.half).after frequencyStore 4
          (World.init (Store.blank (fun _ : Handle => F32.zero))))).result
      = (Cloth_get_selfCollision 4 (World.init (Store.blank (fun _ : Handle => F32.zero)))).result :=
  have hext : ∀ p s h (a : Args s.params) (st : Store (Handle → F32)) o,
      ((frequencyStore.native p s h a st).store.heap o).selfCollision
        = (st.heap o).selfCollision := by
    intro p s h a st o
    show ((frequencyStore.native p s h a st).store.heap o).selfCollision = _
    unfold frequencyStore.native
    split <;> rfl
  ⟨by decide, hext,
   (selfCollision_read_only frequencyStore 4 4 (Op.set_useContinuousCollision F32.half)
      (World.init (Store.blank (fun _ : Handle => F32.zero))) (by decide) (by decide) hext).2.2⟩

/-! ## Marshaling stubs -/

/-- C26: for every input, `marshal_pinvoke`, `marshal_pinvoke_back`,
`marshal_com` and `marshal_com_back` of `ClothSphereColliderPair` raise the
marshal-directive exception whose message names the field
`<first>k__BackingField`, and their output argument is as before; the two
cleanup functions return and leave their argument as it was. -/
theorem marshal_always_fails (unmarshaled : ClothSphereColliderPair)
    (pinvoke : ClothSphereColliderPair_marshaled_pinvoke)
    (com : ClothSphereColliderPair_marshaled_com) :
    ClothSphereColliderPair_marshal_pinvoke unmarshaled pinvoke
      = (.error (.MarshalDirectiveException firstFieldMessage), pinvoke) ∧
    ClothSphereColliderPair_marshal_pinvoke_back pinvoke unmarshaled
      = (.error (.MarshalDirectiveException firstFieldMessage), unmarshaled) ∧
    ClothSphereColliderPair_marshal_com unmarshaled com
      = (.error (.MarshalDirectiveException firstFieldMessage), com) ∧
    ClothSphereColliderPair_marshal_com_back com unmarshaled
      = (.error (.MarshalDirectiveException firstFieldMessage), unmarshaled) ∧
    ClothSphereColliderPair_marshal_pinvoke_cleanup pinvoke = (.ok (), pinvoke) ∧
    ClothSphereColliderPair_marshal_com_cleanup com = (.ok (), com) ∧
    firstFieldMessage.toList.take 39 = "Cannot marshal field '<first>k__Backing".toList :=
  ⟨rfl, rfl, rfl, rfl, rfl, rfl, by decide⟩

/-! ## Keys and wrapper names -/

theorem CallSite.wrapperName_shape (c : CallSite) : isWrapperName c.wrapperName = true := by
  cases c <;> rfl

theorem CallSite.key_shape (c : CallSite) :
    c.key.toList = "UnityEngine.Cloth::".toList ++ methodNameOf c.wrapperName
      ++ '(' :: keyParamText c.key ++ [')'] := by
  cases c <;> rfl

/-- C27: the C name of every icall wrapper has the shape `Cloth_`, method
name, `_m` and 40 hash digits, and the key it passes to the resolver is
`UnityEngine.Cloth::`, then that same method name, then a parenthesised
parameter list; hence two wrappers with different method names never bind the
same key, and a key is bound by one wrapper only. -/
theorem wrapper_binds_own_key :
    (∀ c : CallSite, isWrapperName c.wrapperName = true ∧
      c.key.toList = "UnityEngine.Cloth::".toList ++ methodNameOf c.wrapperName
        ++ '(' :: keyParamText c.key ++ [')']) ∧
    (∀ c d : CallSite,
      methodNameOf c.wrapperName ≠ methodNameOf d.wrapperName → c.key ≠ d.key) ∧
    (∀ c d : CallSite, c.key = d.key → c.wrapperName = d.wrapperName) := by
  refine ⟨fun c => ⟨CallSite.wrapperName_shape c, CallSite.key_shape c⟩, ?_, ?_⟩
  · intro c d hne hk
    exact hne (congrArg (fun x => methodNameOf x.wrapperName) (CallSite.key_injective hk))
  · intro c d hk
    exact congrArg CallSite.wrapperName (CallSite.key_injective hk)

/-- Witness of C27: the getter and the setter of the damping bind different
keys, each with its own method name. -/
theorem wrapper_binds_own_key_witness :
    methodNameOf "Cloth_get_damping_m7554F6DC3355BB4FD3677E4CA8FFBAC2FF8E285B"
      = "get_damping".toList ∧
    methodNameOf CallSite.get_damping.wrapperName ≠ methodNameOf CallSite.set_damping.wrapperName ∧
    CallSite.get_damping.key ≠ CallSite.set_damping.key :=
  ⟨rfl, by decide,
   wrapper_binds_own_key.2.1 .get_damping .set_damping (by decide)⟩

/-! ## Array accessors -/

theorem RuntimeArray.check_in_range {α : Type} (a : RuntimeArray α) (i : Nat)
    (h : i < a.max_length) :
    IL2CPP_ARRAY_BOUNDS_CHECK i (a.max_length % 4294967296) = .ok () := by
  unfold IL2CPP_ARRAY_BOUNDS_CHECK
  have hlt := a.max_length_lt
  have hi : i % 4294967296 = i := Nat.mod_eq_of_lt (by omega)
  rw [Nat.mod_mod, Nat.mod_eq_of_lt hlt, hi, if_pos h]

theorem RuntimeArray.GetAt_in_range {α : Type} (a : RuntimeArray α) (i : Nat)
    (h : i < a.max_length) : a.GetAt i = .ok (a.m_Items i) := by
  unfold RuntimeArray.GetAt
  rw [RuntimeArray.check_in_range a i h]

/-- Reading back after the assignment `m_Items[i] = v`. -/
theorem RuntimeArray.store_round_trip {α : Type} (a : RuntimeArray α) (i : Nat) (v : α)
    (h : i < a.max_length) :
    (a.store i v).GetAt i = .ok v ∧
    (∀ j, j < a.max_length → j ≠ i → (a.store i v).GetAt j = a.GetAt j) ∧
    (a.store i v).max_length = a.max_length := by
  refine ⟨?_, ?_, rfl⟩
  · rw [RuntimeArray.GetAt_in_range (a.store i v) i h]
    show Except.ok (Function.update a.m_Items i v i) = _
    rw [Function.update_same]
  · intro j hj hne
    rw [RuntimeArray.GetAt_in_range (a.store i v) j hj, RuntimeArray.GetAt_in_range a j hj]
    show Except.ok (Function.update a.m_Items i v j) = _
    rw [Function.update_noteq hne]

theorem RoundTrips.of_store {α : Type}
    (SetAt : RuntimeArray α → Nat → α → Except Exception_t Unit × RuntimeArray α)
    (h : ∀ a i v, i < a.max_length → SetAt a i v = (.ok (), a.store i v)) :
    RoundTrips SetAt := by
  intro a i v hi
  rw [h a i v hi]
  obtain ⟨h1, h2, h3⟩ := RuntimeArray.store_round_trip a i v hi
  exact ⟨rfl, h1, h2, h3⟩

/-- C28: in each of the four array types, for every array, every index below
`max_length` and every value: `SetAt` returns, `GetAt` at that index then
returns the value, `GetAt` at every other index below `max_length` returns what
it returned before; and `GetAt` at an index below `max_length` returns what
`GetAtUnchecked` returns there. -/
theorem array_set_then_get :
    RoundTrips Vector3U5BU5D.SetAt ∧
    RoundTrips ClothSkinningCoefficientU5BU5D.SetAt ∧
    RoundTrips CapsuleColliderU5BU5D.SetAt ∧
    RoundTrips ClothSphereColliderPairU5BU5D.SetAt ∧
    (∀ (α : Type) (a : RuntimeArray α) (i : Nat), i < a.max_length →
      a.GetAt i = .ok (a.GetAtUnchecked i) ∧
      a.GetAddressAt i = .ok (a.GetAddressAtUnchecked i)) := by
  refine ⟨?_, ?_, ?_, ?_, ?_⟩
  · apply RoundTrips.of_store
    intro a i v hi
    unfold Vector3U5BU5D.SetAt
    rw [RuntimeArray.check_in_range a i hi]
  · apply RoundTrips.of_store
    intro a i v hi
    unfold ClothSkinningCoefficientU5BU5D.SetAt
    rw [RuntimeArray.check_in_range a i hi]
  · apply RoundTrips.of_store
    intro a i v hi
    unfold CapsuleColliderU5BU5D.SetAt
    rw [RuntimeArray.check_in_range a i hi]
    rfl
  · apply RoundTrips.of_store
    intro a i v hi
    unfold ClothSphereColliderPairU5BU5D.SetAt
    rw [RuntimeArray.check_in_range a i hi]
    rfl
  · intro α a i hi
    constructor
    · exact RuntimeArray.GetAt_in_range a i hi
    · unfold RuntimeArray.GetAddressAt
      rw [RuntimeArray.check_in_range a i hi]
      rfl

/-- Witness of C28: slot 1 of a `Vector3[]` of length 3. -/
theorem array_set_then_get_witness :
    (1 : Nat) < (⟨3, fun _ => Vector3.zero, by decide⟩ : Vector3U5BU5D).max_length ∧
    (Vector3U5BU5D.SetAt ⟨3, fun _ => Vector3.zero, by decide⟩ 1
        ⟨F32.half, F32.zero, F32.c120⟩).2.GetAt 1
      = .ok ⟨F32.half, F32.zero, F32.c120⟩ :=
  ⟨by decide,
   (array_set_then_get.1 ⟨3, fun _ => Vector3.zero, by decide⟩ 1
      ⟨F32.half, F32.zero, F32.c120⟩ (by decide)).2.1⟩

end ClothModule
